import Mathlib

/-!
# kafkajs: request tracker (`SocketRequest`) and client facade (`Client`)

A shallow embedding of

* `src/network/requestQueue/socketRequest.js`: the per-request life-cycle
  object, its four states, its timeout alarm and the continuations it calls;
* `src/index.js`: the `Client` class, which builds one `Cluster` per
  producer, consumer or admin facility.

JavaScript objects are mutated in place and exceptions leave the mutations
made so far in effect, so every operation returns the state it leaves behind
together with how it completed.  Calls that leave the module (the send
callback, the timeout handler, `entry.resolve`, `entry.reject`, `setTimeout`,
`clearTimeout`) are recorded, in order, in a trace.  `Date.now()` is an input
of each operation that reads it.
-/

namespace KafkaJS

/-! ## socketRequest.js -/

/-- The four symbols of `REQUEST_STATE`. -/
inductive RequestState
  | PENDING
  | SENT
  | COMPLETED
  | REJECTED
  deriving DecidableEq, Repr

/-- Text of `Symbol.prototype.toString` for the state symbols. -/
def RequestState.toString : RequestState → String
  | .PENDING => "Symbol(PENDING)"
  | .SENT => "Symbol(SENT)"
  | .COMPLETED => "Symbol(COMPLETED)"
  | .REJECTED => "Symbol(REJECTED)"

/-- Bytes of a response; the tracker only hands them on. -/
abbrev Payload := List Nat

/-- Data fields of the `RequestEntry` typedef.  Its two continuations,
`resolve` and `reject`, are calls out of the module and appear in the trace. -/
structure RequestEntry where
  apiKey : String
  apiName : String
  apiVersion : Int
  correlationId : Int
  deriving DecidableEq, Repr

/-- Error values this module creates or is handed.  The two classes come from
`../../errors`; `KafkaJSRequestTimeoutError` keeps the message and the five
fields of the object literal passed to its constructor.  `Error` stands for
any error object made elsewhere (a socket failure, a connection error). -/
inductive JSError
  | KafkaJSNonRetriableError (message : String)
  | KafkaJSRequestTimeoutError (message : String) (broker : String)
      (correlationId : Int) (createdAt : Int) (sentAt : Option Int)
      (pendingDuration : Option Int)
  | Error (message : String)
  deriving DecidableEq, Repr

/-- The object literal handed to `entry.resolve` by `completed`. -/
structure Envelope where
  correlationId : Int
  entry : RequestEntry
  size : Int
  payload : Payload
  deriving DecidableEq, Repr

/-- Calls that leave the module, as they are recorded in the trace. -/
inductive Event
  | sendRequest
  | timeoutHandler
  | resolve (envelope : Envelope)
  | reject (error : JSError)
  | setTimeout (id : Nat) (delay : Int)
  | clearTimeout (id : Option Nat)
  deriving DecidableEq, Repr

/-- Fields of a `SocketRequest` instance.  `none` is JavaScript `null`; the
field `state` is `this[PRIVATE.STATE]`. -/
structure SocketRequest where
  createdAt : Int
  requestTimeout : Int
  broker : String
  entry : RequestEntry
  correlationId : Int
  expectResponse : Bool
  sentAt : Option Int
  duration : Option Int
  pendingDuration : Option Int
  timeoutId : Option Nat
  state : RequestState
  deriving DecidableEq, Repr

/-- A timer registered with `setTimeout` whose callback has neither run nor been
cleared.  Every timer of the model belongs to the one tracker, so its callback
is that tracker's `timeoutCallback`. -/
structure Timer where
  id : Nat
  delay : Int
  deriving DecidableEq, Repr

/-- A tracker together with the part of the runtime it touches: the armed
timers, the next timer handle the runtime will hand out, and the trace. -/
structure Sys where
  req : SocketRequest
  timers : List Timer
  nextTimerId : Nat
  trace : List Event
  deriving DecidableEq, Repr

/-- How a call ended: it returned, the state guard threw, or the exception of
the send callback passed through `send`. -/
inductive Completion
  | returned
  | invalidState (error : JSError)
  | sendRequestThrew (error : JSError)
  deriving DecidableEq, Repr

/-- State left behind by a call and the way the call ended. -/
structure Result where
  sys : Sys
  completion : Completion
  deriving DecidableEq, Repr

/-- Arguments of the constructor (the callbacks `send` and `timeout` are
recorded in the trace when called). -/
structure ConstructorArgs where
  requestTimeout : Int
  broker : String
  entry : RequestEntry
  expectResponse : Bool
  deriving DecidableEq, Repr

/-- `new SocketRequest({...})` evaluated when `Date.now()` is `now`. -/
def SocketRequest.new (args : ConstructorArgs) (now : Int) : SocketRequest :=
  { createdAt := now
    requestTimeout := args.requestTimeout
    broker := args.broker
    entry := args.entry
    correlationId := args.entry.correlationId
    expectResponse := args.expectResponse
    sentAt := none
    duration := none
    pendingDuration := none
    timeoutId := none
    state := RequestState.PENDING }

/-- A freshly constructed tracker in a runtime with no timer of its own. -/
def Sys.fresh (args : ConstructorArgs) (now : Int) (nextTimerId : Nat) : Sys :=
  { req := SocketRequest.new args now
    timers := []
    nextTimerId := nextTimerId
    trace := [] }

/-- Append one call to the trace. -/
def Sys.emit (s : Sys) (e : Event) : Sys :=
  { s with trace := s.trace ++ [e] }

/-- Message of the error thrown by `throwIfInvalidState`. -/
def invalidStateMessage (current next : RequestState) : String :=
  "Invalid state, can't transition from " ++ current.toString ++ " to " ++ next.toString

/-- `throwIfInvalidState({ accepted, next })`: `none` when it returns, the thrown
error otherwise. -/
def throwIfInvalidState (accepted : List RequestState) (next : RequestState)
    (r : SocketRequest) : Option JSError :=
  if accepted.contains r.state then none
  else some (JSError.KafkaJSNonRetriableError (invalidStateMessage r.state next))

/-- `clearTimeout(id)`: a `null` handle, a cleared timer or one that has already
fired cancels nothing. -/
def clearTimeout (id : Option Nat) (s : Sys) : Sys :=
  let s1 := s.emit (Event.clearTimeout id)
  match id with
  | none => s1
  | some i => { s1 with timers := s1.timers.filter (fun t => t.id != i) }

/-- `setTimeout(timeoutCallback, delay)`: arms a timer and returns its handle. -/
def setTimeout (delay : Int) (s : Sys) : Nat × Sys :=
  let id := s.nextTimerId
  (id, { s with
          timers := s.timers ++ [{ id := id, delay := delay }]
          nextTimerId := id + 1
          trace := s.trace ++ [Event.setTimeout id delay] })

/-- `send()`.  `sendOutcome` is what the send callback does: `none` when it
returns, `some e` when it throws `e`.  `now` is the `Date.now()` read after the
callback has returned. -/
def send (now : Int) (sendOutcome : Option JSError) (s : Sys) : Result :=
  match throwIfInvalidState [RequestState.PENDING] RequestState.SENT s.req with
  | some e => { sys := s, completion := Completion.invalidState e }
  | none =>
    let s1 := s.emit Event.sendRequest
    match sendOutcome with
    | some e => { sys := s1, completion := Completion.sendRequestThrew e }
    | none =>
      let s2 : Sys := { s1 with req := { s1.req with sentAt := some now } }
      let s3 : Sys := { s2 with req := { s2.req with
                          pendingDuration := some (now - s2.req.createdAt) } }
      let s4 : Sys := { s3 with req := { s3.req with state := RequestState.SENT } }
      let (id, s5) := setTimeout s4.req.requestTimeout s4
      { sys := { s5 with req := { s5.req with timeoutId := some id } }
        completion := Completion.returned }

/-- `completed({ size, payload })`; `now` is its `Date.now()`.  In
`Date.now() - this.sentAt` a `null` operand counts as 0. -/
def completed (now : Int) (size : Int) (payload : Payload) (s : Sys) : Result :=
  match throwIfInvalidState [RequestState.SENT] RequestState.COMPLETED s.req with
  | some e => { sys := s, completion := Completion.invalidState e }
  | none =>
    let s1 := clearTimeout s.req.timeoutId s
    let entry := s1.req.entry
    let correlationId := s1.req.correlationId
    let s2 : Sys := { s1 with req := { s1.req with state := RequestState.COMPLETED } }
    let s3 : Sys := { s2 with req := { s2.req with
                        duration := some (now - s2.req.sentAt.getD 0) } }
    { sys := s3.emit (Event.resolve
        { correlationId := correlationId, entry := entry, size := size, payload := payload })
      completion := Completion.returned }

/-- `rejected(error)`; `now` is its `Date.now()`. -/
def rejected (now : Int) (error : JSError) (s : Sys) : Result :=
  match throwIfInvalidState [RequestState.PENDING, RequestState.SENT]
      RequestState.REJECTED s.req with
  | some e => { sys := s, completion := Completion.invalidState e }
  | none =>
    let s1 := clearTimeout s.req.timeoutId s
    let s2 : Sys := { s1 with req := { s1.req with state := RequestState.REJECTED } }
    let s3 : Sys := { s2 with req := { s2.req with
                        duration := some (now - s2.req.sentAt.getD 0) } }
    { sys := s3.emit (Event.reject error), completion := Completion.returned }

/-- The error object built inside `timeoutCallback`. -/
def timeoutError (r : SocketRequest) : JSError :=
  let requestInfo :=
    r.entry.apiName ++ "(key: " ++ r.entry.apiKey ++ ", version: "
      ++ toString r.entry.apiVersion ++ ")"
  JSError.KafkaJSRequestTimeoutError ("Request " ++ requestInfo ++ " timed out")
    r.broker r.correlationId r.createdAt r.sentAt r.pendingDuration

/-- Body of the closure `timeoutCallback` created in `send`; `now` is the
`Date.now()` read by the `rejected` it calls. -/
def timeoutCallback (now : Int) (s : Sys) : Result :=
  let s1 := s.emit Event.timeoutHandler
  rejected now (timeoutError s1.req) s1

/-- The runtime fires timer `id`: an armed timer leaves the timer list and its
callback runs; a handle that is not armed cannot fire (`none`). -/
def fireTimer (id : Nat) (now : Int) (s : Sys) : Option Result :=
  if s.timers.any (fun t => t.id == id) then
    some (timeoutCallback now { s with timers := s.timers.filter (fun t => t.id != id) })
  else none

/-- What can happen to a tracker: one of its three methods is called, or the
runtime fires a timer. -/
inductive Op
  | send (now : Int) (sendOutcome : Option JSError)
  | completed (now : Int) (size : Int) (payload : Payload)
  | rejected (now : Int) (error : JSError)
  | timerFires (id : Nat) (now : Int)
  deriving DecidableEq, Repr

/-- One event.  A timer that is not armed does not fire, so that event leaves
everything as it is. -/
def step (op : Op) (s : Sys) : Result :=
  match op with
  | Op.send now out => send now out s
  | Op.completed now size payload => completed now size payload s
  | Op.rejected now error => rejected now error s
  | Op.timerFires id now =>
    (fireTimer id now s).getD { sys := s, completion := Completion.returned }

/-- A sequence of events; an exception is the caller's to handle and the tracker
lives on in the state the failing call left. -/
def run : List Op → Sys → Sys
  | [], s => s
  | op :: ops, s => run ops (step op s).sys

/-- Number of `entry.resolve` calls in a trace. -/
def resolveCount (t : List Event) : Nat :=
  t.countP (fun e => match e with | Event.resolve _ => true | _ => false)

/-- Number of `entry.reject` calls in a trace. -/
def rejectCount (t : List Event) : Nat :=
  t.countP (fun e => match e with | Event.reject _ => true | _ => false)

/-- Number of calls of the send callback in a trace. -/
def sendRequestCount (t : List Event) : Nat :=
  t.countP (fun e => match e with | Event.sendRequest => true | _ => false)

/-- Number of calls of the timeout handler in a trace. -/
def timeoutHandlerCount (t : List Event) : Nat :=
  t.countP (fun e => match e with | Event.timeoutHandler => true | _ => false)

/-- The state guard threw a `KafkaJSNonRetriableError`. -/
def Completion.isStateViolation : Completion → Bool
  | Completion.invalidState (JSError.KafkaJSNonRetriableError _) => true
  | _ => false

/-- Position of a state in the life cycle: PENDING, then SENT, then the two
terminal states. -/
def RequestState.rank : RequestState → Nat
  | .PENDING => 0
  | .SENT => 1
  | .COMPLETED => 2
  | .REJECTED => 2

/-- COMPLETED and REJECTED. -/
def RequestState.isTerminal : RequestState → Bool
  | .COMPLETED => true
  | .REJECTED => true
  | _ => false

/-- What holds of a tracker built from `args` at time `created`, after any
sequence of events: the constructor's fields are never reassigned, the caller's
continuation has been consumed exactly when the state is terminal, and the
alarm is armed exactly while the state is SENT. -/
structure Inv (args : ConstructorArgs) (created : Int) (s : Sys) : Prop where
  createdAt : s.req.createdAt = created
  requestTimeout : s.req.requestTimeout = args.requestTimeout
  broker : s.req.broker = args.broker
  entry : s.req.entry = args.entry
  correlationId : s.req.correlationId = args.entry.correlationId
  expectResponse : s.req.expectResponse = args.expectResponse
  settled : resolveCount s.trace + rejectCount s.trace =
    if s.req.state.isTerminal then 1 else 0
  pending : s.req.state = RequestState.PENDING →
    s.timers = [] ∧ s.req.sentAt = none ∧ s.req.pendingDuration = none ∧
      s.req.timeoutId = none ∧ s.req.duration = none
  sent : s.req.state = RequestState.SENT →
    (∃ t, s.req.sentAt = some t ∧ s.req.pendingDuration = some (t - created)) ∧
      s.timers = [{ id := s.nextTimerId - 1, delay := args.requestTimeout }] ∧
      s.req.timeoutId = some (s.nextTimerId - 1)
  terminal : s.req.state.isTerminal = true → s.timers = []

/-- Example entry used to evaluate the model on concrete inputs. -/
def exampleEntry : RequestEntry :=
  { apiKey := "3", apiName := "Metadata", apiVersion := 4, correlationId := 7 }

/-- Example constructor arguments: a request that expects a response. -/
def exampleArgs : ConstructorArgs :=
  { requestTimeout := 30000, broker := "localhost:9092", entry := exampleEntry,
    expectResponse := true }

/-- Example constructor arguments: a request that expects no response. -/
def fireAndForgetArgs : ConstructorArgs :=
  { requestTimeout := 30000, broker := "localhost:9092", entry := exampleEntry,
    expectResponse := false }

/-- The same system with the `expectResponse` field set to `b`. -/
def Sys.withExpectResponse (b : Bool) (s : Sys) : Sys :=
  { s with req := { s.req with expectResponse := b } }

/-! ## index.js -/

/-- JavaScript values as far as `Client` moves them around.  An option that is
left out of an options object reads as `undefined`. -/
inductive JSValue
  | undefined
  | null
  | boolean (b : Bool)
  | number (n : Int)
  | string (s : String)
  | object (fields : List (String × JSValue))
  deriving Repr

/-- Test `v === undefined`, the test a default parameter value makes. -/
def JSValue.isUndefined : JSValue → Bool
  | JSValue.undefined => true
  | _ => false

/-- A destructuring default `{ name = d }`: `d` replaces `undefined` and nothing
else (`null` stays `null`). -/
def JSValue.orDefault (v d : JSValue) : JSValue :=
  if v.isUndefined then d else v

/-- Set property `k` of an object under construction: an existing key keeps its
place and takes the new value, a new key goes last. -/
def setProp (fields : List (String × JSValue)) (k : String) (v : JSValue) :
    List (String × JSValue) :=
  if fields.any (fun f => f.1 == k) then
    fields.map (fun f => if f.1 == k then (k, v) else f)
  else fields ++ [(k, v)]

/-- Own enumerable properties copied by a spread element `...v` in an object
literal: those of an object, the indexed characters of a string, none for
`undefined`, `null`, booleans and numbers. -/
def JSValue.spreadProps : JSValue → List (String × JSValue)
  | JSValue.object fields => fields
  | JSValue.string s =>
    s.data.enum.map (fun ic => (toString ic.1, JSValue.string (String.singleton ic.2)))
  | _ => []

/-- Copy the spread properties of `v` into the object under construction. -/
def spreadInto (fields : List (String × JSValue)) (v : JSValue) : List (String × JSValue) :=
  v.spreadProps.foldl (fun acc f => setProp acc f.1 f.2) fields

/-- The logger made by `createLogger({ level, logCreator })`, known by the two
arguments it was made from. -/
structure Logger where
  level : JSValue
  logCreator : JSValue
  deriving Repr

/-- The object literal passed to `new Cluster(...)`. -/
structure ClusterArgs where
  logger : Logger
  brokers : JSValue
  ssl : JSValue
  sasl : JSValue
  clientId : JSValue
  connectionTimeout : JSValue
  authenticationTimeout : JSValue
  metadataMaxAge : JSValue
  retry : JSValue
  allowAutoTopicCreation : JSValue
  allowExperimentalV011 : JSValue
  maxInFlightRequests : JSValue
  deriving Repr

/-- What `./loggers`, `./loggers/console` and `./cluster` supply: the level
`LEVELS.INFO`, the default log creator, and the `retry` property a `Cluster`
built from given constructor arguments exposes. -/
structure Imports where
  INFO : JSValue
  LoggerConsole : JSValue
  clusterRetry : ClusterArgs → JSValue

/-- The options object of the `Client` constructor. -/
structure ClientOptions where
  brokers : JSValue := JSValue.undefined
  ssl : JSValue := JSValue.undefined
  sasl : JSValue := JSValue.undefined
  clientId : JSValue := JSValue.undefined
  connectionTimeout : JSValue := JSValue.undefined
  authenticationTimeout : JSValue := JSValue.undefined
  retry : JSValue := JSValue.undefined
  logLevel : JSValue := JSValue.undefined
  logCreator : JSValue := JSValue.undefined
  allowExperimentalV011 : JSValue := JSValue.undefined
  deriving Repr

/-- A `Client` instance: its logger and the constructor parameters captured by
the closure stored under `PRIVATE.CREATE_CLUSTER`. -/
structure Client where
  logger : Logger
  brokers : JSValue
  ssl : JSValue
  sasl : JSValue
  clientId : JSValue
  connectionTimeout : JSValue
  authenticationTimeout : JSValue
  retry : JSValue
  allowExperimentalV011 : JSValue
  deriving Repr

/-- `new Client({...})`. -/
def Client.new (imp : Imports) (o : ClientOptions) : Client :=
  { logger :=
      { level := o.logLevel.orDefault imp.INFO
        logCreator := o.logCreator.orDefault imp.LoggerConsole }
    brokers := o.brokers
    ssl := o.ssl
    sasl := o.sasl
    clientId := o.clientId
    connectionTimeout := o.connectionTimeout
    authenticationTimeout := o.authenticationTimeout
    retry := o.retry
    allowExperimentalV011 := o.allowExperimentalV011.orDefault (JSValue.boolean true) }

/-- The argument of the closure `this[PRIVATE.CREATE_CLUSTER]`. -/
structure CreateClusterOptions where
  metadataMaxAge : JSValue := JSValue.undefined
  allowAutoTopicCreation : JSValue := JSValue.undefined
  maxInFlightRequests : JSValue := JSValue.undefined
  deriving Repr

/-- `this[PRIVATE.CREATE_CLUSTER]({...})`: the arguments `new Cluster` receives. -/
def Client.createCluster (c : Client) (o : CreateClusterOptions) : ClusterArgs :=
  { logger := c.logger
    brokers := c.brokers
    ssl := c.ssl
    sasl := c.sasl
    clientId := c.clientId
    connectionTimeout := c.connectionTimeout
    authenticationTimeout := c.authenticationTimeout
    metadataMaxAge := o.metadataMaxAge.orDefault (JSValue.number 300000)
    retry := c.retry
    allowAutoTopicCreation := o.allowAutoTopicCreation.orDefault (JSValue.boolean true)
    allowExperimentalV011 := c.allowExperimentalV011
    maxInFlightRequests := o.maxInFlightRequests.orDefault JSValue.null }

/-- The options object of `producer()`; called without an argument it is `{}`. -/
structure ProducerOptions where
  createPartitioner : JSValue := JSValue.undefined
  retry : JSValue := JSValue.undefined
  metadataMaxAge : JSValue := JSValue.undefined
  allowAutoTopicCreation : JSValue := JSValue.undefined
  idempotent : JSValue := JSValue.undefined
  transactionalId : JSValue := JSValue.undefined
  transactionTimeout : JSValue := JSValue.undefined
  maxInFlightRequests : JSValue := JSValue.undefined
  deriving Repr

/-- The object literal passed to `createProducer`. -/
structure CreateProducerArgs where
  retry : JSValue
  logger : Logger
  cluster : ClusterArgs
  createPartitioner : JSValue
  idempotent : JSValue
  transactionalId : JSValue
  transactionTimeout : JSValue
  deriving Repr

/-- `producer({...})`: what `createProducer` is called with. -/
def Client.producer (imp : Imports) (c : Client) (o : ProducerOptions) :
    CreateProducerArgs :=
  let cluster := c.createCluster
    { metadataMaxAge := o.metadataMaxAge
      allowAutoTopicCreation := o.allowAutoTopicCreation
      maxInFlightRequests := o.maxInFlightRequests }
  { retry := JSValue.object (spreadInto (spreadInto [] (imp.clusterRetry cluster)) o.retry)
    logger := c.logger
    cluster := cluster
    createPartitioner := o.createPartitioner
    idempotent := o.idempotent
    transactionalId := o.transactionalId
    transactionTimeout := o.transactionTimeout }

/-- The options object of `consumer()`; called without an argument it is `{}`. -/
structure ConsumerOptions where
  groupId : JSValue := JSValue.undefined
  partitionAssigners : JSValue := JSValue.undefined
  metadataMaxAge : JSValue := JSValue.undefined
  sessionTimeout : JSValue := JSValue.undefined
  heartbeatInterval : JSValue := JSValue.undefined
  maxBytesPerPartition : JSValue := JSValue.undefined
  minBytes : JSValue := JSValue.undefined
  maxBytes : JSValue := JSValue.undefined
  maxWaitTimeInMs : JSValue := JSValue.undefined
  retry : JSValue := JSValue.undefined
  allowAutoTopicCreation : JSValue := JSValue.undefined
  maxInFlightRequests : JSValue := JSValue.undefined
  deriving Repr

/-- The object literal passed to `createConsumer`. -/
structure CreateConsumerArgs where
  retry : JSValue
  logger : Logger
  cluster : ClusterArgs
  groupId : JSValue
  partitionAssigners : JSValue
  sessionTimeout : JSValue
  heartbeatInterval : JSValue
  maxBytesPerPartition : JSValue
  minBytes : JSValue
  maxBytes : JSValue
  maxWaitTimeInMs : JSValue
  deriving Repr

/-- `consumer({...})`: what `createConsumer` is called with.  Its `retry` is the
literal `{ ...cluster.retry, retry }`, the shorthand property `retry`. -/
def Client.consumer (imp : Imports) (c : Client) (o : ConsumerOptions) :
    CreateConsumerArgs :=
  let cluster := c.createCluster
    { metadataMaxAge := o.metadataMaxAge
      allowAutoTopicCreation := o.allowAutoTopicCreation
      maxInFlightRequests := o.maxInFlightRequests }
  { retry := JSValue.object (setProp (spreadInto [] (imp.clusterRetry cluster)) "retry" o.retry)
    logger := c.logger
    cluster := cluster
    groupId := o.groupId
    partitionAssigners := o.partitionAssigners
    sessionTimeout := o.sessionTimeout
    heartbeatInterval := o.heartbeatInterval
    maxBytesPerPartition := o.maxBytesPerPartition
    minBytes := o.minBytes
    maxBytes := o.maxBytes
    maxWaitTimeInMs := o.maxWaitTimeInMs }

/-- The options object of `admin()`; called without an argument it is `{}`. -/
structure AdminOptions where
  retry : JSValue := JSValue.undefined
  deriving Repr

/-- The object literal passed to `createAdmin`. -/
structure CreateAdminArgs where
  retry : JSValue
  logger : Logger
  cluster : ClusterArgs
  deriving Repr

/-- `admin({...})`: what `createAdmin` is called with. -/
def Client.admin (imp : Imports) (c : Client) (o : AdminOptions) :
    CreateAdminArgs :=
  let cluster := c.createCluster { allowAutoTopicCreation := JSValue.boolean false }
  { retry := JSValue.object (setProp (spreadInto [] (imp.clusterRetry cluster)) "retry" o.retry)
    logger := c.logger
    cluster := cluster }

/-- Example imports: the level constant 4, a console creator named by a string,
and a cluster that exposes the retry policy it was constructed with. -/
def exampleImports : Imports :=
  { INFO := JSValue.number 4
    LoggerConsole := JSValue.string "LoggerConsole"
    clusterRetry := fun a => a.retry }

/-- Example client options: one seed broker and a client id. -/
def exampleClientOptions : ClientOptions :=
  { brokers := JSValue.object [("0", JSValue.string "localhost:9092")]
    clientId := JSValue.string "app" }

/-- Read property `k` of an object literal; a missing property reads as
`undefined`. -/
def getProp (fields : List (String × JSValue)) (k : String) : JSValue :=
  match fields.find? (fun f => f.1 == k) with
  | some f => f.2
  | none => JSValue.undefined

/-- The destructuring pattern `{ retry }` of `admin` applied to an argument
object: `retry` is read, every other property of the argument is ignored. -/
def AdminOptions.ofObject (fields : List (String × JSValue)) : AdminOptions :=
  { retry := getProp fields "retry" }

/-- Example of a cluster retry policy and a per-call retry object. -/
def exampleClusterRetry : JSValue :=
  JSValue.object [("retries", JSValue.number 5), ("initialRetryTime", JSValue.number 300)]

/-- Example per-call retry object: it sets `retries` only. -/
def examplePerCallRetry : JSValue :=
  JSValue.object [("retries", JSValue.number 2)]

/-- Example client whose cluster retry policy is `exampleClusterRetry`. -/
def exampleRetryClient : Client :=
  Client.new exampleImports { retry := exampleClusterRetry }

/-! ## broker/index.js

The Broker facade is not among the sources; its test
`broker/__tests__/metadata.spec.js` is.  The definitions of this section follow
the specification. -/

/-- Modelled from the spec: the errors the Broker facade surfaces (`src/errors` is
missing): the plain `Error` of the connection check, and the protocol error that
carries the symbolic name of a broker-reported error code. -/
inductive BrokerError
  | Error (message : String)
  | KafkaJSProtocolError (type : String) (code : Nat)
  deriving DecidableEq, Repr

/-- Modelled from the spec: symbolic names of the broker error codes the
specification and the metadata test name (the protocol's error table is
missing). -/
def errorType : Nat → String
  | 3 => "UNKNOWN_TOPIC_OR_PARTITION"
  | 5 => "LEADER_NOT_AVAILABLE"
  | 41 => "NOT_CONTROLLER"
  | _ => "UNKNOWN"

/-- Modelled from the spec: one entry of `partitionMetadata` in a metadata
response. -/
structure PartitionMetadata where
  partitionId : Nat
  partitionErrorCode : Nat
  leader : Int
  replicas : List Int
  isr : List Int
  deriving DecidableEq, Repr

/-- Modelled from the spec: one entry of `topicMetadata` in a metadata response. -/
structure TopicMetadata where
  topic : String
  topicErrorCode : Nat
  isInternal : Bool
  partitionMetadata : List PartitionMetadata
  deriving DecidableEq, Repr

/-- Modelled from the spec: one entry of `brokers` in a metadata response. -/
structure BrokerInfo where
  nodeId : Int
  host : String
  port : Nat
  rack : Option String
  deriving DecidableEq, Repr

/-- Modelled from the spec: the decoded metadata response of section 6. -/
structure MetadataResponse where
  throttleTime : Nat
  brokers : List BrokerInfo
  clusterId : String
  controllerId : Int
  topicMetadata : List TopicMetadata
  deriving DecidableEq, Repr

/-- Modelled from the spec: the metadata request the facade encodes; auto topic
creation is asked for as part of the request itself. -/
structure MetadataRequest where
  topics : Option (List String)
  allowAutoTopicCreation : Bool
  deriving DecidableEq, Repr

/-- Modelled from the spec: the single-broker cluster of the test scenarios, as
far as metadata sees it: the node and the topics that exist, each with one
partition led by the node. -/
structure RemoteCluster where
  node : BrokerInfo
  clusterId : String
  topics : List String
  deriving DecidableEq, Repr

/-- Modelled from the spec: metadata of one requested topic.  A topic that exists
has error code 0 and its one partition; one that does not exist is reported as
unknown (code 3) when auto topic creation is off, and as created and still
without a leader (code 5) when it is on. -/
def RemoteCluster.topicMetadata (r : RemoteCluster) (allowAutoTopicCreation : Bool)
    (topic : String) : TopicMetadata :=
  if r.topics.contains topic then
    { topic := topic, topicErrorCode := 0, isInternal := false
      partitionMetadata :=
        [{ partitionId := 0, partitionErrorCode := 0, leader := r.node.nodeId
           replicas := [r.node.nodeId], isr := [r.node.nodeId] }] }
  else if allowAutoTopicCreation then
    { topic := topic, topicErrorCode := 5, isInternal := false, partitionMetadata := [] }
  else
    { topic := topic, topicErrorCode := 3, isInternal := false, partitionMetadata := [] }

/-- Modelled from the spec: the cluster after it served a metadata request; topics
that were asked for and do not exist are created when the request allows it. -/
def RemoteCluster.afterRequest (r : RemoteCluster) (req : MetadataRequest) : RemoteCluster :=
  match req.topics with
  | none => r
  | some ts =>
    if req.allowAutoTopicCreation then
      { r with topics := r.topics ++ (ts.filter (fun t => !r.topics.contains t)).eraseDups }
    else r

/-- Modelled from the spec: the response of the cluster to a metadata request; no
topic list asks for every topic. -/
def RemoteCluster.respond (r : RemoteCluster) (req : MetadataRequest) : MetadataResponse :=
  { throttleTime := 0
    brokers := [r.node]
    clusterId := r.clusterId
    controllerId := r.node.nodeId
    topicMetadata :=
      (req.topics.getD r.topics).map (r.topicMetadata req.allowAutoTopicCreation) }

/-- Modelled from the spec: step (e) of a facade method; a decoded response that
carries a broker-side error code surfaces as a protocol error with the code's
symbolic name. -/
def decodeMetadata (resp : MetadataResponse) : Except BrokerError MetadataResponse :=
  match resp.topicMetadata.find? (fun t => t.topicErrorCode != 0) with
  | some t => Except.error
      (BrokerError.KafkaJSProtocolError (errorType t.topicErrorCode) t.topicErrorCode)
  | none => Except.ok resp

/-- Modelled from the spec: the Broker facade (`src/broker/index.js` is missing):
its auto-topic-creation flag, enabled unless given, and whether `connect()` has
established the connection. -/
structure Broker where
  allowAutoTopicCreation : Bool
  connected : Bool
  deriving DecidableEq, Repr

/-- Modelled from the spec: `new Broker({ connection, allowAutoTopicCreation, logger })`;
a new facade has no established connection. -/
def Broker.new (allowAutoTopicCreation : Option Bool) : Broker :=
  { allowAutoTopicCreation := allowAutoTopicCreation.getD true, connected := false }

/-- Modelled from the spec: `connect()`; `ok` tells whether transport connection
and handshakes succeeded, a failure leaves the connection unusable. -/
def Broker.connect (b : Broker) (ok : Bool) : Broker :=
  { b with connected := ok }

/-- Modelled from the spec: `disconnect()`. -/
def Broker.disconnect (b : Broker) : Broker :=
  { b with connected := false }

/-- What a `metadata` call leaves: how the returned promise settles, the requests
handed to `Connection.send`, and the cluster afterwards. -/
structure MetadataOutcome where
  result : Except BrokerError MetadataResponse
  sent : List MetadataRequest
  cluster : RemoteCluster

/-- Modelled from the spec: `metadata(topics)` of the Broker facade, steps (a) to
(e) of section 4.3: fail at once with "not connected" when no connection is
established; otherwise build the request, send it, and decode the response. -/
def Broker.metadata (b : Broker) (r : RemoteCluster) (topics : Option (List String)) :
    MetadataOutcome :=
  if b.connected then
    let req : MetadataRequest :=
      { topics := topics, allowAutoTopicCreation := b.allowAutoTopicCreation }
    { result := decodeMetadata (r.respond req)
      sent := [req]
      cluster := r.afterRequest req }
  else
    { result := Except.error (BrokerError.Error "Broker not connected")
      sent := []
      cluster := r }

/-- Example single-broker cluster with one topic. -/
def exampleCluster : RemoteCluster :=
  { node := { nodeId := 0, host := "127.0.0.1", port := 9092, rack := none }
    clusterId := "kafka"
    topics := ["t"] }

/-! ## Lemmas on the request tracker

### What each method does, state by state -/

theorem send_not_pending (now : Int) (out : Option JSError) (s : Sys)
    (h : s.req.state ≠ RequestState.PENDING) :
    send now out s =
      { sys := s
        completion := Completion.invalidState (JSError.KafkaJSNonRetriableError
          (invalidStateMessage s.req.state RequestState.SENT)) } := by
  unfold send throwIfInvalidState
  cases hs : s.req.state <;> simp_all

theorem send_pending_threw (now : Int) (e : JSError) (s : Sys)
    (h : s.req.state = RequestState.PENDING) :
    send now (some e) s =
      { sys := s.emit Event.sendRequest, completion := Completion.sendRequestThrew e } := by
  unfold send throwIfInvalidState
  simp [h]

theorem send_pending_returned (now : Int) (s : Sys)
    (h : s.req.state = RequestState.PENDING) :
    send now none s =
      { sys :=
          { req := { s.req with
                      sentAt := some now
                      pendingDuration := some (now - s.req.createdAt)
                      state := RequestState.SENT
                      timeoutId := some s.nextTimerId }
            timers := s.timers ++ [{ id := s.nextTimerId, delay := s.req.requestTimeout }]
            nextTimerId := s.nextTimerId + 1
            trace := s.trace ++
              [Event.sendRequest, Event.setTimeout s.nextTimerId s.req.requestTimeout] }
        completion := Completion.returned } := by
  unfold send throwIfInvalidState
  simp [h, setTimeout, Sys.emit]

theorem completed_not_sent (now size : Int) (payload : Payload) (s : Sys)
    (h : s.req.state ≠ RequestState.SENT) :
    completed now size payload s =
      { sys := s
        completion := Completion.invalidState (JSError.KafkaJSNonRetriableError
          (invalidStateMessage s.req.state RequestState.COMPLETED)) } := by
  unfold completed throwIfInvalidState
  cases hs : s.req.state <;> simp_all

theorem completed_sent (now size : Int) (payload : Payload) (s : Sys)
    (h : s.req.state = RequestState.SENT) :
    completed now size payload s =
      { sys :=
          { req := { s.req with
                      state := RequestState.COMPLETED
                      duration := some (now - s.req.sentAt.getD 0) }
            timers := (clearTimeout s.req.timeoutId s).timers
            nextTimerId := s.nextTimerId
            trace := s.trace ++
              [Event.clearTimeout s.req.timeoutId,
               Event.resolve { correlationId := s.req.correlationId, entry := s.req.entry,
                               size := size, payload := payload }] }
        completion := Completion.returned } := by
  unfold completed throwIfInvalidState
  cases ht : s.req.timeoutId <;> simp [h, clearTimeout, Sys.emit, ht]

theorem rejected_not_accepted (now : Int) (error : JSError) (s : Sys)
    (h1 : s.req.state ≠ RequestState.PENDING) (h2 : s.req.state ≠ RequestState.SENT) :
    rejected now error s =
      { sys := s
        completion := Completion.invalidState (JSError.KafkaJSNonRetriableError
          (invalidStateMessage s.req.state RequestState.REJECTED)) } := by
  unfold rejected throwIfInvalidState
  cases hs : s.req.state <;> simp_all

theorem rejected_accepted (now : Int) (error : JSError) (s : Sys)
    (h : s.req.state = RequestState.PENDING ∨ s.req.state = RequestState.SENT) :
    rejected now error s =
      { sys :=
          { req := { s.req with
                      state := RequestState.REJECTED
                      duration := some (now - s.req.sentAt.getD 0) }
            timers := (clearTimeout s.req.timeoutId s).timers
            nextTimerId := s.nextTimerId
            trace := s.trace ++ [Event.clearTimeout s.req.timeoutId, Event.reject error] }
        completion := Completion.returned } := by
  unfold rejected throwIfInvalidState
  rcases h with h | h <;> cases ht : s.req.timeoutId <;> simp [h, clearTimeout, Sys.emit, ht]

theorem fireTimer_armed (id : Nat) (now : Int) (s : Sys)
    (h : s.timers.any (fun t => t.id == id) = true) :
    fireTimer id now s =
      some (timeoutCallback now { s with timers := s.timers.filter (fun t => t.id != id) }) := by
  unfold fireTimer
  rw [if_pos h]

theorem fireTimer_not_armed (id : Nat) (now : Int) (s : Sys)
    (h : s.timers.any (fun t => t.id == id) = false) :
    fireTimer id now s = none := by
  unfold fireTimer
  simp [h]

theorem timeoutCallback_accepted (now : Int) (s : Sys)
    (h : s.req.state = RequestState.PENDING ∨ s.req.state = RequestState.SENT) :
    timeoutCallback now s =
      { sys :=
          { req := { s.req with
                      state := RequestState.REJECTED
                      duration := some (now - s.req.sentAt.getD 0) }
            timers := (clearTimeout s.req.timeoutId s).timers
            nextTimerId := s.nextTimerId
            trace := s.trace ++
              [Event.timeoutHandler, Event.clearTimeout s.req.timeoutId,
               Event.reject (timeoutError s.req)] }
        completion := Completion.returned } := by
  unfold timeoutCallback
  rw [rejected_accepted now _ _ (by simpa [Sys.emit] using h)]
  cases ht : s.req.timeoutId <;> simp [Sys.emit, clearTimeout, ht]

theorem timeoutCallback_not_accepted (now : Int) (s : Sys)
    (h1 : s.req.state ≠ RequestState.PENDING) (h2 : s.req.state ≠ RequestState.SENT) :
    timeoutCallback now s =
      { sys := s.emit Event.timeoutHandler
        completion := Completion.invalidState (JSError.KafkaJSNonRetriableError
          (invalidStateMessage s.req.state RequestState.REJECTED)) } := by
  unfold timeoutCallback
  rw [rejected_not_accepted now _ _ (by simpa [Sys.emit] using h1)
    (by simpa [Sys.emit] using h2)]
  simp [Sys.emit]

/-! ### Counting continuation calls -/

theorem resolveCount_append (t u : List Event) :
    resolveCount (t ++ u) = resolveCount t + resolveCount u := by
  simp [resolveCount, List.countP_append]

theorem rejectCount_append (t u : List Event) :
    rejectCount (t ++ u) = rejectCount t + rejectCount u := by
  simp [rejectCount, List.countP_append]

theorem sendRequestCount_append (t u : List Event) :
    sendRequestCount (t ++ u) = sendRequestCount t + sendRequestCount u := by
  simp [sendRequestCount, List.countP_append]

theorem resolveCount_nil : resolveCount [] = 0 := rfl

theorem rejectCount_nil : rejectCount [] = 0 := rfl

theorem resolveCount_cons (e : Event) (t : List Event) :
    resolveCount (e :: t) =
      (match e with | Event.resolve _ => 1 | _ => 0) + resolveCount t := by
  cases e <;> simp [resolveCount, Nat.add_comm]

theorem rejectCount_cons (e : Event) (t : List Event) :
    rejectCount (e :: t) =
      (match e with | Event.reject _ => 1 | _ => 0) + rejectCount t := by
  cases e <;> simp [rejectCount, Nat.add_comm]

theorem timeoutHandlerCount_append (t u : List Event) :
    timeoutHandlerCount (t ++ u) = timeoutHandlerCount t + timeoutHandlerCount u := by
  simp [timeoutHandlerCount, List.countP_append]

/-! ### The invariant of a tracker's life -/

theorem inv_fresh (args : ConstructorArgs) (created : Int) (n : Nat) :
    Inv args created (Sys.fresh args created n) := by
  constructor <;> simp [Sys.fresh, SocketRequest.new, resolveCount, rejectCount,
    RequestState.isTerminal]

theorem unsettled_counts (args : ConstructorArgs) (created : Int) (s : Sys)
    (h : Inv args created s) (hs : s.req.state.isTerminal = false) :
    resolveCount s.trace = 0 ∧ rejectCount s.trace = 0 := by
  have h7 := h.settled
  simp only [hs] at h7
  constructor <;> simp at h7 <;> omega

theorem inv_send (args : ConstructorArgs) (created : Int) (s : Sys) (now : Int)
    (out : Option JSError) (h : Inv args created s) :
    Inv args created (send now out s).sys := by
  by_cases hp : s.req.state = RequestState.PENDING
  · obtain ⟨ht, -, -, -, -⟩ := h.pending hp
    have h7 := h.settled
    simp only [hp, RequestState.isTerminal] at h7
    cases out with
    | some e =>
      rw [send_pending_threw now e s hp]
      obtain ⟨h1, h2, h3, h4, h5, h6, -, h8, h9, h10⟩ := h
      refine ⟨?_, ?_, ?_, ?_, ?_, ?_, ?s, ?_, ?_, ?_⟩
      case s =>
        simp only [Sys.emit, hp, RequestState.isTerminal, resolveCount_append,
          rejectCount_append, resolveCount_cons, rejectCount_cons, resolveCount_nil,
          rejectCount_nil]
        simpa using h7
      all_goals simp_all [Sys.emit]
    | none =>
      rw [send_pending_returned now s hp]
      obtain ⟨h1, h2, h3, h4, h5, h6, -, h8, h9, h10⟩ := h
      refine ⟨?_, ?_, ?_, ?_, ?_, ?_, ?s, ?_, ?_, ?_⟩
      case s =>
        simp only [RequestState.isTerminal, resolveCount_append,
          rejectCount_append, resolveCount_cons, rejectCount_cons, resolveCount_nil,
          rejectCount_nil]
        simpa using h7
      all_goals simp_all [RequestState.isTerminal]
  · rw [send_not_pending now out s hp]
    exact h

theorem inv_settle (args : ConstructorArgs) (created : Int) (s : Sys) (now : Int)
    (e : Event) (pre : List Event) (next : RequestState)
    (he : (match e with | Event.resolve _ => 1 | _ => 0) +
      (match e with | Event.reject _ => 1 | _ => 0) = 1)
    (hpre : resolveCount pre = 0 ∧ rejectCount pre = 0)
    (hn : next.isTerminal = true)
    (hs : s.req.state.isTerminal = false)
    (h : Inv args created s) :
    Inv args created
      { req := { s.req with state := next, duration := some (now - s.req.sentAt.getD 0) }
        timers := []
        nextTimerId := s.nextTimerId
        trace := s.trace ++ (pre ++ [e]) } := by
  have h7 := h.settled
  simp only [hs] at h7
  obtain ⟨h1, h2, h3, h4, h5, h6, -, h8, h9, h10⟩ := h
  constructor
  case settled =>
    simp only [hn, resolveCount_append, rejectCount_append, resolveCount_cons,
      rejectCount_cons, resolveCount_nil, rejectCount_nil, hpre.1, hpre.2]
    simp only [if_true]
    simp at h7
    omega
  case pending =>
    intro hq
    simp only at hq
    rw [hq] at hn
    simp [RequestState.isTerminal] at hn
  case sent =>
    intro hq
    simp only at hq
    rw [hq] at hn
    simp [RequestState.isTerminal] at hn
  all_goals simp_all

theorem clearTimeout_pending (args : ConstructorArgs) (created : Int) (s : Sys)
    (h : Inv args created s) (hs : s.req.state.isTerminal = false) :
    (clearTimeout s.req.timeoutId s).timers = [] := by
  cases hq : s.req.state with
  | PENDING =>
    obtain ⟨ht, -, -, hid, -⟩ := h.pending hq
    simp [clearTimeout, Sys.emit, hid, ht]
  | SENT =>
    obtain ⟨-, ht, hid⟩ := h.sent hq
    simp [clearTimeout, Sys.emit, hid, ht]
  | COMPLETED => simp [hq, RequestState.isTerminal] at hs
  | REJECTED => simp [hq, RequestState.isTerminal] at hs

theorem inv_completed (args : ConstructorArgs) (created : Int) (s : Sys) (now size : Int)
    (payload : Payload) (h : Inv args created s) :
    Inv args created (completed now size payload s).sys := by
  by_cases hp : s.req.state = RequestState.SENT
  · have hs : s.req.state.isTerminal = false := by simp [hp, RequestState.isTerminal]
    rw [completed_sent now size payload s hp, clearTimeout_pending args created s h hs]
    exact inv_settle args created s now _ [Event.clearTimeout s.req.timeoutId]
      RequestState.COMPLETED rfl ⟨rfl, rfl⟩ rfl hs h
  · rw [completed_not_sent now size payload s hp]
    exact h

theorem inv_rejected (args : ConstructorArgs) (created : Int) (s : Sys) (now : Int)
    (error : JSError) (h : Inv args created s) :
    Inv args created (rejected now error s).sys := by
  by_cases hp : s.req.state = RequestState.PENDING ∨ s.req.state = RequestState.SENT
  · have hs : s.req.state.isTerminal = false := by
      rcases hp with hp | hp <;> simp [hp, RequestState.isTerminal]
    rw [rejected_accepted now error s hp, clearTimeout_pending args created s h hs]
    exact inv_settle args created s now _ [Event.clearTimeout s.req.timeoutId]
      RequestState.REJECTED rfl ⟨rfl, rfl⟩ rfl hs h
  · rw [rejected_not_accepted now error s (fun q => hp (Or.inl q)) (fun q => hp (Or.inr q))]
    exact h

theorem armed_is_sent (args : ConstructorArgs) (created : Int) (s : Sys)
    (h : Inv args created s) (hne : s.timers ≠ []) :
    s.req.state = RequestState.SENT := by
  cases hq : s.req.state with
  | PENDING => exact absurd (h.pending hq).1 hne
  | SENT => rfl
  | COMPLETED => exact absurd (h.terminal (by simp [hq, RequestState.isTerminal])) hne
  | REJECTED => exact absurd (h.terminal (by simp [hq, RequestState.isTerminal])) hne

theorem fireTimer_sent (args : ConstructorArgs) (created : Int) (s : Sys) (id : Nat)
    (now : Int) (h : Inv args created s)
    (hf : s.timers.any (fun t => t.id == id) = true) :
    s.req.state = RequestState.SENT ∧ s.req.timeoutId = some id ∧
      fireTimer id now s = some
        { sys :=
            { req := { s.req with
                        state := RequestState.REJECTED
                        duration := some (now - s.req.sentAt.getD 0) }
              timers := []
              nextTimerId := s.nextTimerId
              trace := s.trace ++
                ([Event.timeoutHandler, Event.clearTimeout s.req.timeoutId] ++
                  [Event.reject (timeoutError s.req)]) }
          completion := Completion.returned } := by
  have hne : s.timers ≠ [] := by
    intro h0
    simp [h0] at hf
  have hs := armed_is_sent args created s h hne
  obtain ⟨-, ht, hid⟩ := h.sent hs
  have hidEq : s.nextTimerId - 1 = id := by
    simpa [ht] using hf
  refine ⟨hs, by rw [hid, hidEq], ?_⟩
  have hs2 : ({ s with timers := s.timers.filter (fun t => t.id != id) } : Sys).req.state
      = RequestState.SENT := hs
  rw [fireTimer_armed id now s hf, timeoutCallback_accepted now _ (Or.inr hs2)]
  simp [clearTimeout, Sys.emit, hid, ht, hidEq]

theorem inv_step (args : ConstructorArgs) (created : Int) (s : Sys) (op : Op)
    (h : Inv args created s) : Inv args created (step op s).sys := by
  cases op with
  | send now out => exact inv_send args created s now out h
  | completed now size payload => exact inv_completed args created s now size payload h
  | rejected now error => exact inv_rejected args created s now error h
  | timerFires id now =>
    show Inv args created
      ((fireTimer id now s).getD { sys := s, completion := Completion.returned }).sys
    cases hf : s.timers.any (fun t => t.id == id) with
    | false =>
      rw [fireTimer_not_armed id now s hf]
      exact h
    | true =>
      obtain ⟨hs, -, heq⟩ := fireTimer_sent args created s id now h hf
      rw [heq]
      exact inv_settle args created s now _ _ RequestState.REJECTED rfl ⟨rfl, rfl⟩ rfl
        (by simp [hs, RequestState.isTerminal]) h

theorem inv_run (args : ConstructorArgs) (created : Int) (ops : List Op) (s : Sys)
    (h : Inv args created s) : Inv args created (run ops s) := by
  induction ops generalizing s with
  | nil => exact h
  | cons op ops ih => exact ih _ (inv_step args created s op h)

theorem inv_reachable (args : ConstructorArgs) (created : Int) (n : Nat) (ops : List Op) :
    Inv args created (run ops (Sys.fresh args created n)) :=
  inv_run args created ops _ (inv_fresh args created n)

/-! ### The state only moves forward -/

theorem step_state (op : Op) (s : Sys) :
    (step op s).sys.req.state = s.req.state ∨
      s.req.state.rank < (step op s).sys.req.state.rank := by
  cases op with
  | send now out =>
    by_cases hp : s.req.state = RequestState.PENDING
    · cases out with
      | some e => left; rw [step, send_pending_threw now e s hp]; rfl
      | none => right; rw [step, send_pending_returned now s hp, hp]; simp [RequestState.rank]
    · left; rw [step, send_not_pending now out s hp]
  | completed now size payload =>
    by_cases hp : s.req.state = RequestState.SENT
    · right; rw [step, completed_sent now size payload s hp, hp]; simp [RequestState.rank]
    · left; rw [step, completed_not_sent now size payload s hp]
  | rejected now error =>
    by_cases hp : s.req.state = RequestState.PENDING ∨ s.req.state = RequestState.SENT
    · right
      rw [step, rejected_accepted now error s hp]
      rcases hp with hp | hp <;> rw [hp] <;> simp [RequestState.rank]
    · left
      rw [step, rejected_not_accepted now error s (fun q => hp (Or.inl q))
        (fun q => hp (Or.inr q))]
  | timerFires id now =>
    show ((fireTimer id now s).getD { sys := s, completion := Completion.returned }).sys.req.state
        = s.req.state ∨ s.req.state.rank <
      ((fireTimer id now s).getD
        { sys := s, completion := Completion.returned }).sys.req.state.rank
    cases hf : s.timers.any (fun t => t.id == id) with
    | false => left; rw [fireTimer_not_armed id now s hf]; rfl
    | true =>
      rw [fireTimer_armed id now s hf]
      by_cases hp : s.req.state = RequestState.PENDING ∨ s.req.state = RequestState.SENT
      · right
        have hp2 : ({ s with timers := s.timers.filter (fun t => t.id != id) } : Sys).req.state
            = RequestState.PENDING ∨
            ({ s with timers := s.timers.filter (fun t => t.id != id) } : Sys).req.state
            = RequestState.SENT := hp
        rw [timeoutCallback_accepted now _ hp2]
        rcases hp with hp | hp <;> simp [hp, RequestState.rank]
      · left
        have h1 : ({ s with timers := s.timers.filter (fun t => t.id != id) } : Sys).req.state
            ≠ RequestState.PENDING := fun q => hp (Or.inl q)
        have h2 : ({ s with timers := s.timers.filter (fun t => t.id != id) } : Sys).req.state
            ≠ RequestState.SENT := fun q => hp (Or.inr q)
        rw [timeoutCallback_not_accepted now _ h1 h2]
        rfl

theorem run_rank_le (ops : List Op) (s : Sys) :
    s.req.state.rank ≤ (run ops s).req.state.rank := by
  induction ops generalizing s with
  | nil => exact Nat.le_refl _
  | cons op ops ih =>
    have h1 := step_state op s
    have h2 := ih (step op s).sys
    simp only [run]
    rcases h1 with h1 | h1
    · rw [h1] at h2; exact h2
    · omega

theorem run_terminal (ops : List Op) (s : Sys) (h : s.req.state.isTerminal = true) :
    (run ops s).req.state = s.req.state := by
  induction ops generalizing s with
  | nil => rfl
  | cons op ops ih =>
    have h1 := step_state op s
    simp only [run]
    rcases h1 with h1 | h1
    · rw [ih _ (by rw [h1]; exact h), h1]
    · exfalso
      revert h h1
      cases s.req.state <;> cases (step op s).sys.req.state <;>
        simp [RequestState.isTerminal, RequestState.rank]

/-! ### When a method returns -/

theorem send_returned_iff (now : Int) (out : Option JSError) (s : Sys) :
    (send now out s).completion = Completion.returned ↔
      s.req.state = RequestState.PENDING ∧ out = none := by
  by_cases hp : s.req.state = RequestState.PENDING
  · cases out with
    | some e => rw [send_pending_threw now e s hp]; simp
    | none => rw [send_pending_returned now s hp]; simp [hp]
  · rw [send_not_pending now out s hp]; simp [hp]

theorem completed_returned_iff (now size : Int) (payload : Payload) (s : Sys) :
    (completed now size payload s).completion = Completion.returned ↔
      s.req.state = RequestState.SENT := by
  by_cases hp : s.req.state = RequestState.SENT
  · rw [completed_sent now size payload s hp]; simp [hp]
  · rw [completed_not_sent now size payload s hp]; simp [hp]

theorem rejected_returned_iff (now : Int) (error : JSError) (s : Sys) :
    (rejected now error s).completion = Completion.returned ↔
      (s.req.state = RequestState.PENDING ∨ s.req.state = RequestState.SENT) := by
  by_cases hp : s.req.state = RequestState.PENDING ∨ s.req.state = RequestState.SENT
  · rw [rejected_accepted now error s hp]; simp [hp]
  · rw [rejected_not_accepted now error s (fun q => hp (Or.inl q)) (fun q => hp (Or.inr q))]
    simp [hp]

theorem send_violation_iff (now : Int) (out : Option JSError) (s : Sys) :
    (send now out s).completion.isStateViolation = true ↔
      s.req.state ≠ RequestState.PENDING := by
  by_cases hp : s.req.state = RequestState.PENDING
  · cases out with
    | some e => rw [send_pending_threw now e s hp]; simp [hp, Completion.isStateViolation]
    | none => rw [send_pending_returned now s hp]; simp [hp, Completion.isStateViolation]
  · rw [send_not_pending now out s hp]; simp [hp, Completion.isStateViolation]

theorem completed_violation_iff (now size : Int) (payload : Payload) (s : Sys) :
    (completed now size payload s).completion.isStateViolation = true ↔
      s.req.state ≠ RequestState.SENT := by
  by_cases hp : s.req.state = RequestState.SENT
  · rw [completed_sent now size payload s hp]; simp [hp, Completion.isStateViolation]
  · rw [completed_not_sent now size payload s hp]; simp [hp, Completion.isStateViolation]

theorem rejected_violation_iff (now : Int) (error : JSError) (s : Sys) :
    (rejected now error s).completion.isStateViolation = true ↔
      (s.req.state ≠ RequestState.PENDING ∧ s.req.state ≠ RequestState.SENT) := by
  by_cases hp : s.req.state = RequestState.PENDING ∨ s.req.state = RequestState.SENT
  · rw [rejected_accepted now error s hp]
    rcases hp with hp | hp <;> simp [hp, Completion.isStateViolation]
  · rw [rejected_not_accepted now error s (fun q => hp (Or.inl q)) (fun q => hp (Or.inr q))]
    simpa [Completion.isStateViolation, not_or] using hp

/-! ## Claims about the request tracker -/

/-- C1: each of send, completed and rejected throws the state-violation error (the
`KafkaJSNonRetriableError` of the state guard, with the guard's message) exactly
when the state is outside the set the method accepts: PENDING for send, SENT for
completed, PENDING or SENT for rejected.  In COMPLETED and in REJECTED all three
throw. -/
theorem C1_state_violation_iff_outside_accepted (s : Sys) (now size : Int)
    (out : Option JSError) (payload : Payload) (error : JSError) :
    ((send now out s).completion.isStateViolation = true ↔
        s.req.state ∉ [RequestState.PENDING]) ∧
    ((completed now size payload s).completion.isStateViolation = true ↔
        s.req.state ∉ [RequestState.SENT]) ∧
    ((rejected now error s).completion.isStateViolation = true ↔
        s.req.state ∉ [RequestState.PENDING, RequestState.SENT]) ∧
    (s.req.state ∉ [RequestState.PENDING] →
      (send now out s).completion = Completion.invalidState
        (JSError.KafkaJSNonRetriableError
          (invalidStateMessage s.req.state RequestState.SENT))) ∧
    (s.req.state ∉ [RequestState.SENT] →
      (completed now size payload s).completion = Completion.invalidState
        (JSError.KafkaJSNonRetriableError
          (invalidStateMessage s.req.state RequestState.COMPLETED))) ∧
    (s.req.state ∉ [RequestState.PENDING, RequestState.SENT] →
      (rejected now error s).completion = Completion.invalidState
        (JSError.KafkaJSNonRetriableError
          (invalidStateMessage s.req.state RequestState.REJECTED))) ∧
    (s.req.state ∈ [RequestState.COMPLETED, RequestState.REJECTED] →
      (send now out s).completion.isStateViolation = true ∧
      (completed now size payload s).completion.isStateViolation = true ∧
      (rejected now error s).completion.isStateViolation = true) := by
  refine ⟨?_, ?_, ?_, ?_, ?_, ?_, ?_⟩
  · rw [send_violation_iff]; simp
  · rw [completed_violation_iff]; simp
  · rw [rejected_violation_iff]; simp
  · intro h
    rw [send_not_pending now out s (by simpa using h)]
  · intro h
    rw [completed_not_sent now size payload s (by simpa using h)]
  · intro h
    have h2 : s.req.state ≠ RequestState.PENDING ∧ s.req.state ≠ RequestState.SENT := by
      simpa using h
    rw [rejected_not_accepted now error s h2.1 h2.2]
  · intro h
    rw [send_violation_iff, completed_violation_iff, rejected_violation_iff]
    have h2 : s.req.state = RequestState.COMPLETED ∨ s.req.state = RequestState.REJECTED := by
      simpa using h
    rcases h2 with h2 | h2 <;> simp [h2]

/-- Witness of C1: on a tracker that has been sent and completed, all three
methods throw the state-violation error. -/
theorem C1_terminal_state_witness :
    (send 9 none (run [Op.send 5 none, Op.completed 8 2 [1, 2]]
      (Sys.fresh exampleArgs 0 0))).completion.isStateViolation = true ∧
    (completed 9 2 [1, 2] (run [Op.send 5 none, Op.completed 8 2 [1, 2]]
      (Sys.fresh exampleArgs 0 0))).completion.isStateViolation = true ∧
    (rejected 9 (JSError.Error "late") (run [Op.send 5 none, Op.completed 8 2 [1, 2]]
      (Sys.fresh exampleArgs 0 0))).completion.isStateViolation = true :=
  (C1_state_violation_iff_outside_accepted
    (run [Op.send 5 none, Op.completed 8 2 [1, 2]] (Sys.fresh exampleArgs 0 0))
    9 2 none [1, 2] (JSError.Error "late")).2.2.2.2.2.2 (by decide)

/-- C2: after any sequence of send, completed, rejected calls and timer firings on
a freshly constructed tracker, `entry.resolve` and `entry.reject` have been called
at most once in total, and exactly once if and only if the tracker is in
COMPLETED or REJECTED. -/
theorem C2_continuation_consumed_at_most_once (args : ConstructorArgs) (created : Int)
    (n : Nat) (ops : List Op) :
    resolveCount (run ops (Sys.fresh args created n)).trace +
        rejectCount (run ops (Sys.fresh args created n)).trace ≤ 1 ∧
    (resolveCount (run ops (Sys.fresh args created n)).trace +
        rejectCount (run ops (Sys.fresh args created n)).trace = 1 ↔
      ((run ops (Sys.fresh args created n)).req.state = RequestState.COMPLETED ∨
       (run ops (Sys.fresh args created n)).req.state = RequestState.REJECTED)) := by
  have h := (inv_reachable args created n ops).settled
  cases hq : (run ops (Sys.fresh args created n)).req.state <;>
    simp [hq, RequestState.isTerminal] at h ⊢ <;> omega

/-- C3: with the order PENDING < SENT < COMPLETED, REJECTED, the state never moves
backward along a sequence of events; one event either leaves the state as it is
or moves it strictly forward; a method or timer callback that returns moves it
strictly forward; a method that has returned once never returns again later in
the sequence; a terminal state never changes. -/
theorem C3_state_monotonic_and_exclusive (s : Sys) (ops : List Op) (op : Op)
    (now now2 size size2 : Int) (out out2 : Option JSError) (payload payload2 : Payload)
    (error error2 : JSError) (id : Nat) :
    s.req.state.rank ≤ (run ops s).req.state.rank ∧
    ((step op s).sys.req.state = s.req.state ∨
      s.req.state.rank < (step op s).sys.req.state.rank) ∧
    ((send now out s).completion = Completion.returned →
      s.req.state.rank < (send now out s).sys.req.state.rank) ∧
    ((completed now size payload s).completion = Completion.returned →
      s.req.state.rank < (completed now size payload s).sys.req.state.rank) ∧
    ((rejected now error s).completion = Completion.returned →
      s.req.state.rank < (rejected now error s).sys.req.state.rank) ∧
    (∀ r, fireTimer id now s = some r → r.completion = Completion.returned →
      s.req.state.rank < r.sys.req.state.rank) ∧
    ((send now out s).completion = Completion.returned →
      (send now2 out2 (run ops (send now out s).sys)).completion.isStateViolation = true) ∧
    ((completed now size payload s).completion = Completion.returned →
      (completed now2 size2 payload2
        (run ops (completed now size payload s).sys)).completion.isStateViolation = true) ∧
    ((rejected now error s).completion = Completion.returned →
      (rejected now2 error2
        (run ops (rejected now error s).sys)).completion.isStateViolation = true) ∧
    (s.req.state.isTerminal = true → (run ops s).req.state = s.req.state) := by
  refine ⟨run_rank_le ops s, step_state op s, ?_, ?_, ?_, ?_, ?_, ?_, ?_, run_terminal ops s⟩
  · intro h
    obtain ⟨hp, ho⟩ := (send_returned_iff now out s).1 h
    subst ho
    rw [send_pending_returned now s hp, hp]
    simp [RequestState.rank]
  · intro h
    have hp := (completed_returned_iff now size payload s).1 h
    rw [completed_sent now size payload s hp, hp]
    simp [RequestState.rank]
  · intro h
    have hp := (rejected_returned_iff now error s).1 h
    rw [rejected_accepted now error s hp]
    rcases hp with hp | hp <;> rw [hp] <;> simp [RequestState.rank]
  · intro r hr hc
    cases hf : s.timers.any (fun t => t.id == id) with
    | false => rw [fireTimer_not_armed id now s hf] at hr; cases hr
    | true =>
      rw [fireTimer_armed id now s hf] at hr
      injection hr with hr
      subst hr
      have hacc := (rejected_returned_iff now _ _).1 hc
      have hacc2 : s.req.state = RequestState.PENDING ∨ s.req.state = RequestState.SENT := hacc
      have hacc3 : ({ s with timers := s.timers.filter (fun t => t.id != id) } : Sys).req.state
          = RequestState.PENDING ∨
          ({ s with timers := s.timers.filter (fun t => t.id != id) } : Sys).req.state
          = RequestState.SENT := hacc2
      rw [timeoutCallback_accepted now _ hacc3]
      rcases hacc2 with hp | hp <;> simp [hp, RequestState.rank]
  · intro h
    obtain ⟨hp, ho⟩ := (send_returned_iff now out s).1 h
    subst ho
    rw [send_violation_iff]
    have hle := run_rank_le ops (send now none s).sys
    rw [send_pending_returned now s hp] at hle ⊢
    intro hq
    rw [hq] at hle
    simp [RequestState.rank] at hle
  · intro h
    have hp := (completed_returned_iff now size payload s).1 h
    rw [completed_violation_iff]
    have hle := run_rank_le ops (completed now size payload s).sys
    rw [completed_sent now size payload s hp] at hle ⊢
    intro hq
    rw [hq] at hle
    simp [RequestState.rank] at hle
  · intro h
    have hp := (rejected_returned_iff now error s).1 h
    rw [rejected_violation_iff]
    have hle := run_rank_le ops (rejected now error s).sys
    rw [rejected_accepted now error s hp] at hle ⊢
    constructor <;>
    · intro hq
      rw [hq] at hle
      simp [RequestState.rank] at hle

/-- Witness of C3: a send that returned on a fresh tracker moved the state
forward, and a second send, tried after the response came, throws. -/
theorem C3_send_twice_witness :
    (Sys.fresh exampleArgs 0 0).req.state.rank
      < (send 5 none (Sys.fresh exampleArgs 0 0)).sys.req.state.rank ∧
    (send 9 none (run [Op.completed 8 2 [1, 2]]
      (send 5 none (Sys.fresh exampleArgs 0 0)).sys)).completion.isStateViolation = true :=
  ⟨(C3_state_monotonic_and_exclusive (Sys.fresh exampleArgs 0 0) [Op.completed 8 2 [1, 2]]
      (Op.send 5 none) 5 9 2 2 none none [1, 2] [1, 2] (JSError.Error "a")
      (JSError.Error "b") 0).2.2.1 (by decide),
   (C3_state_monotonic_and_exclusive (Sys.fresh exampleArgs 0 0) [Op.completed 8 2 [1, 2]]
      (Op.send 5 none) 5 9 2 2 none none [1, 2] [1, 2] (JSError.Error "a")
      (JSError.Error "b") 0).2.2.2.2.2.2.1 (by decide)⟩

/-- C4: in every state reached from construction by send, completed, rejected and
timer firings, a timer is armed only if the state is SENT; after a completed or a
rejected that returned no timer is armed, and in COMPLETED and REJECTED no timer
can fire; when a timer does fire, the `rejected` call of its callback is accepted
(the callback returns, the state guard does not throw) and no timer is left
armed. -/
theorem C4_alarm_armed_only_while_sent (args : ConstructorArgs) (created : Int) (n : Nat)
    (ops : List Op) (now size : Int) (payload : Payload) (error : JSError) (id : Nat) :
    ((run ops (Sys.fresh args created n)).timers ≠ [] →
      (run ops (Sys.fresh args created n)).req.state = RequestState.SENT) ∧
    ((completed now size payload (run ops (Sys.fresh args created n))).completion
        = Completion.returned →
      (completed now size payload (run ops (Sys.fresh args created n))).sys.timers = []) ∧
    ((rejected now error (run ops (Sys.fresh args created n))).completion
        = Completion.returned →
      (rejected now error (run ops (Sys.fresh args created n))).sys.timers = []) ∧
    ((run ops (Sys.fresh args created n)).req.state.isTerminal = true →
      fireTimer id now (run ops (Sys.fresh args created n)) = none) ∧
    (∀ r, fireTimer id now (run ops (Sys.fresh args created n)) = some r →
      r.completion = Completion.returned ∧ r.sys.req.state = RequestState.REJECTED ∧
        r.sys.timers = []) := by
  have hinv := inv_reachable args created n ops
  refine ⟨armed_is_sent args created _ hinv, ?_, ?_, ?_, ?_⟩
  · intro h
    apply (inv_completed args created _ now size payload hinv).terminal
    rw [completed_sent now size payload _ ((completed_returned_iff now size payload _).1 h)]
    rfl
  · intro h
    apply (inv_rejected args created _ now error hinv).terminal
    rw [rejected_accepted now error _ ((rejected_returned_iff now error _).1 h)]
    rfl
  · intro h
    apply fireTimer_not_armed
    rw [hinv.terminal h]
    rfl
  · intro r hr
    cases hf : (run ops (Sys.fresh args created n)).timers.any (fun t => t.id == id) with
    | false => rw [fireTimer_not_armed id now _ hf] at hr; cases hr
    | true =>
      obtain ⟨-, -, heq⟩ := fireTimer_sent args created _ id now hinv hf
      rw [heq] at hr
      injection hr with hr
      subst hr
      exact ⟨rfl, rfl, rfl⟩

/-- Witness of C4: after one send the alarm is armed and the state is SENT; when
that alarm fires its callback returns and leaves REJECTED with no timer armed. -/
theorem C4_alarm_witness :
    (run [Op.send 5 none] (Sys.fresh exampleArgs 0 0)).req.state = RequestState.SENT ∧
    (∃ r, fireTimer 0 9 (run [Op.send 5 none] (Sys.fresh exampleArgs 0 0)) = some r ∧
      r.completion = Completion.returned ∧ r.sys.req.state = RequestState.REJECTED ∧
      r.sys.timers = []) :=
  ⟨(C4_alarm_armed_only_while_sent exampleArgs 0 0 [Op.send 5 none] 9 0 []
      (JSError.Error "closed") 0).1 (by decide),
   ⟨_, rfl, (C4_alarm_armed_only_while_sent exampleArgs 0 0 [Op.send 5 none] 9 0 []
      (JSError.Error "closed") 0).2.2.2.2 _ rfl⟩⟩

/-- C5: when the alarm of a SENT tracker fires, the callback calls the timeout
handler once, then `clearTimeout`, then `entry.reject` once with a
`KafkaJSRequestTimeoutError` whose message is
`Request <apiName>(key: <apiKey>, version: <apiVersion>) timed out` and whose
fields are the tracker's broker, correlationId, createdAt, sentAt and
pendingDuration; nothing else is called, `entry.resolve` in particular is not,
and the tracker ends in REJECTED. -/
theorem C5_alarm_fires_handler_then_reject (s : Sys) (id : Nat) (now : Int)
    (hs : s.req.state = RequestState.SENT)
    (hf : s.timers.any (fun t => t.id == id) = true) :
    ∃ r, fireTimer id now s = some r ∧
      r.completion = Completion.returned ∧
      r.sys.trace = s.trace ++
        [Event.timeoutHandler,
         Event.clearTimeout s.req.timeoutId,
         Event.reject (JSError.KafkaJSRequestTimeoutError
           ("Request " ++ (s.req.entry.apiName ++ "(key: " ++ s.req.entry.apiKey ++
             ", version: " ++ toString s.req.entry.apiVersion ++ ")") ++ " timed out")
           s.req.broker s.req.correlationId s.req.createdAt s.req.sentAt
           s.req.pendingDuration)] ∧
      timeoutHandlerCount r.sys.trace = timeoutHandlerCount s.trace + 1 ∧
      rejectCount r.sys.trace = rejectCount s.trace + 1 ∧
      resolveCount r.sys.trace = resolveCount s.trace ∧
      r.sys.req.state = RequestState.REJECTED := by
  have hs2 : ({ s with timers := s.timers.filter (fun t => t.id != id) } : Sys).req.state
      = RequestState.PENDING ∨
      ({ s with timers := s.timers.filter (fun t => t.id != id) } : Sys).req.state
      = RequestState.SENT := Or.inr hs
  refine ⟨_, fireTimer_armed id now s hf, ?_⟩
  rw [timeoutCallback_accepted now _ hs2]
  refine ⟨rfl, rfl, ?_, ?_, ?_, rfl⟩
  · simp [timeoutHandlerCount_append, timeoutHandlerCount]
  · simp [rejectCount_append, rejectCount]
  · simp [resolveCount_append, resolveCount]

/-- Witness of C5: a tracker sent at time 5 whose alarm fires at time 9. -/
theorem C5_alarm_fires_witness :
    ∃ r, fireTimer 0 9 (run [Op.send 5 none] (Sys.fresh exampleArgs 0 0)) = some r ∧
      r.completion = Completion.returned ∧
      r.sys.trace = (run [Op.send 5 none] (Sys.fresh exampleArgs 0 0)).trace ++
        [Event.timeoutHandler,
         Event.clearTimeout (some 0),
         Event.reject (JSError.KafkaJSRequestTimeoutError
           "Request Metadata(key: 3, version: 4) timed out"
           "localhost:9092" 7 0 (some 5) (some 5))] ∧
      timeoutHandlerCount r.sys.trace = 1 ∧
      rejectCount r.sys.trace = 1 ∧
      resolveCount r.sys.trace = 0 ∧
      r.sys.req.state = RequestState.REJECTED :=
  C5_alarm_fires_handler_then_reject (run [Op.send 5 none] (Sys.fresh exampleArgs 0 0)) 0 9
    (by decide) (by decide)

/-- C6: on a tracker in state SENT, `completed({ size, payload })` returns, cancels
the armed alarm (no timer is left), moves the state to COMPLETED, sets duration
to the current time minus sentAt, and calls `entry.resolve` exactly once, with
`{ correlationId, entry, size, payload }` where correlationId and entry are those
the tracker was constructed with and size and payload are the arguments;
`entry.reject` is not called. -/
theorem C6_completed_resolves_with_envelope (args : ConstructorArgs) (created : Int)
    (n : Nat) (ops : List Op) (now size : Int) (payload : Payload)
    (hs : (run ops (Sys.fresh args created n)).req.state = RequestState.SENT) :
    (completed now size payload (run ops (Sys.fresh args created n))).completion
        = Completion.returned ∧
    (∃ id, (run ops (Sys.fresh args created n)).req.timeoutId = some id ∧
      (run ops (Sys.fresh args created n)).timers
        = [{ id := id, delay := args.requestTimeout }]) ∧
    (completed now size payload (run ops (Sys.fresh args created n))).sys.timers = [] ∧
    (completed now size payload (run ops (Sys.fresh args created n))).sys.req.state
        = RequestState.COMPLETED ∧
    (∃ sentAt, (run ops (Sys.fresh args created n)).req.sentAt = some sentAt ∧
      (completed now size payload (run ops (Sys.fresh args created n))).sys.req.duration
        = some (now - sentAt)) ∧
    (completed now size payload (run ops (Sys.fresh args created n))).sys.trace
        = (run ops (Sys.fresh args created n)).trace ++
          [Event.clearTimeout (run ops (Sys.fresh args created n)).req.timeoutId,
           Event.resolve { correlationId := args.entry.correlationId, entry := args.entry,
                           size := size, payload := payload }] ∧
    resolveCount (completed now size payload (run ops (Sys.fresh args created n))).sys.trace
        = 1 ∧
    rejectCount (completed now size payload (run ops (Sys.fresh args created n))).sys.trace
        = 0 := by
  have hinv := inv_reachable args created n ops
  have hterm := (inv_completed args created _ now size payload hinv).terminal
  obtain ⟨⟨t, ht, -⟩, htim, hid⟩ := hinv.sent hs
  have h0 := unsettled_counts args created _ hinv (by simp [hs, RequestState.isTerminal])
  rw [completed_sent now size payload _ hs] at hterm ⊢
  refine ⟨rfl, ⟨_, hid, htim⟩, hterm rfl, rfl, ⟨t, ht, ?_⟩, ?_, ?_, ?_⟩
  · simp [ht]
  · simp [hinv.correlationId, hinv.entry]
  · simp only [resolveCount_append, resolveCount_cons, resolveCount_nil, h0.1]
  · simp only [rejectCount_append, rejectCount_cons, rejectCount_nil, h0.2]

/-- Witness of C6: a tracker sent at time 5 and completed at time 8. -/
theorem C6_completed_witness :
    (completed 8 2 [1, 2] (run [Op.send 5 none] (Sys.fresh exampleArgs 0 0))).sys.req.state
        = RequestState.COMPLETED ∧
    (completed 8 2 [1, 2] (run [Op.send 5 none] (Sys.fresh exampleArgs 0 0))).sys.timers
        = [] :=
  ⟨(C6_completed_resolves_with_envelope exampleArgs 0 0 [Op.send 5 none] 8 2 [1, 2]
      (by decide)).2.2.2.1,
   (C6_completed_resolves_with_envelope exampleArgs 0 0 [Op.send 5 none] 8 2 [1, 2]
      (by decide)).2.2.1⟩

/-- C7: on a tracker in state PENDING, `send()` calls the send callback exactly
once; when the callback returns, `send()` returns with sentAt set to the current
time, pendingDuration set to sentAt minus createdAt (not negative when the clock
has not gone backward since construction), the state SENT and exactly one alarm
armed, its delay being the requestTimeout the tracker was constructed with;
neither `entry.resolve` nor `entry.reject` has been called. -/
theorem C7_send_transmits_and_arms_alarm (args : ConstructorArgs) (created : Int)
    (n : Nat) (ops : List Op) (now : Int) (out : Option JSError)
    (hs : (run ops (Sys.fresh args created n)).req.state = RequestState.PENDING) :
    sendRequestCount (send now out (run ops (Sys.fresh args created n))).sys.trace
        = sendRequestCount (run ops (Sys.fresh args created n)).trace + 1 ∧
    (send now none (run ops (Sys.fresh args created n))).completion = Completion.returned ∧
    (send now none (run ops (Sys.fresh args created n))).sys.req.sentAt = some now ∧
    (send now none (run ops (Sys.fresh args created n))).sys.req.pendingDuration
        = some (now - created) ∧
    (created ≤ now → 0 ≤ now - created) ∧
    (send now none (run ops (Sys.fresh args created n))).sys.req.state
        = RequestState.SENT ∧
    (∃ id, (send now none (run ops (Sys.fresh args created n))).sys.req.timeoutId = some id ∧
      (send now none (run ops (Sys.fresh args created n))).sys.timers
        = [{ id := id, delay := args.requestTimeout }] ∧
      (send now none (run ops (Sys.fresh args created n))).sys.trace
        = (run ops (Sys.fresh args created n)).trace ++
          [Event.sendRequest, Event.setTimeout id args.requestTimeout]) ∧
    resolveCount (send now none (run ops (Sys.fresh args created n))).sys.trace = 0 ∧
    rejectCount (send now none (run ops (Sys.fresh args created n))).sys.trace = 0 := by
  have hinv := inv_reachable args created n ops
  obtain ⟨htim, -, -, -, -⟩ := hinv.pending hs
  have h0 := unsettled_counts args created _ hinv (by simp [hs, RequestState.isTerminal])
  refine ⟨?_, ?_⟩
  · cases out with
    | some e =>
      rw [send_pending_threw now e _ hs]
      simp [Sys.emit, sendRequestCount_append, sendRequestCount]
    | none =>
      rw [send_pending_returned now _ hs]
      simp [sendRequestCount_append, sendRequestCount]
  · rw [send_pending_returned now _ hs]
    refine ⟨rfl, rfl, ?_, ?_, rfl, ⟨_, rfl, ?_, ?_⟩, ?_, ?_⟩
    · simp [hinv.createdAt]
    · intro h; omega
    · simp [htim, hinv.requestTimeout]
    · simp [hinv.requestTimeout]
    · simp only [resolveCount_append, resolveCount_cons, resolveCount_nil, h0.1]
    · simp only [rejectCount_append, rejectCount_cons, rejectCount_nil, h0.2]

/-- Witness of C7: a tracker created at time 0 and sent at time 5. -/
theorem C7_send_witness :
    (send 5 none (run [] (Sys.fresh exampleArgs 0 0))).sys.req.state = RequestState.SENT ∧
    (send 5 none (run [] (Sys.fresh exampleArgs 0 0))).sys.req.pendingDuration = some (5 - 0) :=
  ⟨(C7_send_transmits_and_arms_alarm exampleArgs 0 0 [] 5 none (by decide)).2.2.2.2.2.1,
   (C7_send_transmits_and_arms_alarm exampleArgs 0 0 [] 5 none (by decide)).2.2.2.1⟩

/-- C8: on a tracker in state PENDING or SENT, `rejected(e)` returns, calls
`clearTimeout` on the tracker's handle so that no timer is left armed, moves the
state to REJECTED, and calls `entry.reject` exactly once, with `e` itself;
`entry.resolve` is not called. -/
theorem C8_rejected_rejects_with_error (args : ConstructorArgs) (created : Int)
    (n : Nat) (ops : List Op) (now : Int) (error : JSError)
    (hs : (run ops (Sys.fresh args created n)).req.state = RequestState.PENDING ∨
      (run ops (Sys.fresh args created n)).req.state = RequestState.SENT) :
    (rejected now error (run ops (Sys.fresh args created n))).completion
        = Completion.returned ∧
    (rejected now error (run ops (Sys.fresh args created n))).sys.timers = [] ∧
    (rejected now error (run ops (Sys.fresh args created n))).sys.req.state
        = RequestState.REJECTED ∧
    (rejected now error (run ops (Sys.fresh args created n))).sys.trace
        = (run ops (Sys.fresh args created n)).trace ++
          [Event.clearTimeout (run ops (Sys.fresh args created n)).req.timeoutId,
           Event.reject error] ∧
    rejectCount (rejected now error (run ops (Sys.fresh args created n))).sys.trace = 1 ∧
    resolveCount (rejected now error (run ops (Sys.fresh args created n))).sys.trace = 0 := by
  have hinv := inv_reachable args created n ops
  have hterm := (inv_rejected args created _ now error hinv).terminal
  have hnt : (run ops (Sys.fresh args created n)).req.state.isTerminal = false := by
    rcases hs with hs | hs <;> simp [hs, RequestState.isTerminal]
  have h0 := unsettled_counts args created _ hinv hnt
  rw [rejected_accepted now error _ hs] at hterm ⊢
  refine ⟨rfl, hterm rfl, rfl, rfl, ?_, ?_⟩
  · simp only [rejectCount_append, rejectCount_cons, rejectCount_nil, h0.2]
  · simp only [resolveCount_append, resolveCount_cons, resolveCount_nil, h0.1]

/-- Witness of C8: a sent tracker rejected with a connection error. -/
theorem C8_rejected_witness :
    (rejected 8 (JSError.Error "Connection closed")
        (run [Op.send 5 none] (Sys.fresh exampleArgs 0 0))).sys.timers = [] ∧
    (rejected 8 (JSError.Error "Connection closed")
        (run [Op.send 5 none] (Sys.fresh exampleArgs 0 0))).sys.trace
      = [Event.sendRequest, Event.setTimeout 0 30000, Event.clearTimeout (some 0),
         Event.reject (JSError.Error "Connection closed")] :=
  ⟨(C8_rejected_rejects_with_error exampleArgs 0 0 [Op.send 5 none] 8
      (JSError.Error "Connection closed") (Or.inr (by decide))).2.1,
   (C8_rejected_rejects_with_error exampleArgs 0 0 [Op.send 5 none] 8
      (JSError.Error "Connection closed") (Or.inr (by decide))).2.2.2.1⟩

/-- C9, as stated, fails: a tracker constructed with `expectResponse = false` is
in SENT after a `send()` that returned, not in COMPLETED, and `entry.resolve` has
not been called. -/
theorem C9_send_does_not_complete_counterexample :
    fireAndForgetArgs.expectResponse = false ∧
    (send 5 none (Sys.fresh fireAndForgetArgs 0 0)).completion = Completion.returned ∧
    (send 5 none (Sys.fresh fireAndForgetArgs 0 0)).sys.req.state = RequestState.SENT ∧
    (send 5 none (Sys.fresh fireAndForgetArgs 0 0)).sys.req.state ≠ RequestState.COMPLETED ∧
    resolveCount (send 5 none (Sys.fresh fireAndForgetArgs 0 0)).sys.trace = 0 := by
  decide

/-- C9, amended: whatever `expectResponse` is, and so when it is false, a `send()`
that returns leaves the tracker in SENT with its alarm armed and has called
neither `entry.resolve` nor `entry.reject`; `send()` does not read
`expectResponse` (setting the field changes nothing else in its result); one
event moves a tracker into COMPLETED only if it is a `completed()` call, and a
`completed()` call after the send does so and calls `entry.resolve` once. -/
theorem C9_send_leaves_sent_whatever_expectResponse (args : ConstructorArgs)
    (created : Int) (n : Nat) (ops : List Op) (now now2 size : Int) (payload : Payload)
    (hs : (run ops (Sys.fresh args created n)).req.state = RequestState.PENDING) :
    (send now none (run ops (Sys.fresh args created n))).completion = Completion.returned ∧
    (send now none (run ops (Sys.fresh args created n))).sys.req.state
        = RequestState.SENT ∧
    (send now none (run ops (Sys.fresh args created n))).sys.timers ≠ [] ∧
    resolveCount (send now none (run ops (Sys.fresh args created n))).sys.trace = 0 ∧
    rejectCount (send now none (run ops (Sys.fresh args created n))).sys.trace = 0 ∧
    (∀ (b : Bool) (out : Option JSError) (t : Sys),
      send now out (t.withExpectResponse b) =
        { sys := (send now out t).sys.withExpectResponse b
          completion := (send now out t).completion }) ∧
    (∀ (op : Op) (t : Sys), t.req.state ≠ RequestState.COMPLETED →
      (step op t).sys.req.state = RequestState.COMPLETED →
      ∃ now3 size3 payload3, op = Op.completed now3 size3 payload3) ∧
    (completed now2 size payload
        (send now none (run ops (Sys.fresh args created n))).sys).sys.req.state
        = RequestState.COMPLETED ∧
    resolveCount (completed now2 size payload
        (send now none (run ops (Sys.fresh args created n))).sys).sys.trace = 1 := by
  have hinv := inv_reachable args created n ops
  have h0 := unsettled_counts args created _ hinv (by simp [hs, RequestState.isTerminal])
  have hret : (send now none (run ops (Sys.fresh args created n))).completion
      = Completion.returned := by
    rw [send_pending_returned now _ hs]
  have hsent : (send now none (run ops (Sys.fresh args created n))).sys.req.state
      = RequestState.SENT := by
    rw [send_pending_returned now _ hs]
  have hres : resolveCount (send now none (run ops (Sys.fresh args created n))).sys.trace
      = 0 := by
    rw [send_pending_returned now _ hs]
    simp only [resolveCount_append, resolveCount_cons, resolveCount_nil, h0.1]
  have hrej : rejectCount (send now none (run ops (Sys.fresh args created n))).sys.trace
      = 0 := by
    rw [send_pending_returned now _ hs]
    simp only [rejectCount_append, rejectCount_cons, rejectCount_nil, h0.2]
  have htim : (send now none (run ops (Sys.fresh args created n))).sys.timers ≠ [] := by
    rw [send_pending_returned now _ hs]
    simp
  refine ⟨hret, hsent, htim, hres, hrej, ?_, ?_, ?_, ?_⟩
  · intro b out t
    by_cases hp : t.req.state = RequestState.PENDING
    · have hp2 : (t.withExpectResponse b).req.state = RequestState.PENDING := hp
      cases out with
      | some e =>
        rw [send_pending_threw now e _ hp2, send_pending_threw now e _ hp]
        rfl
      | none =>
        rw [send_pending_returned now _ hp2, send_pending_returned now _ hp]
        rfl
    · have hp2 : (t.withExpectResponse b).req.state ≠ RequestState.PENDING := hp
      rw [send_not_pending now out _ hp2, send_not_pending now out _ hp]
      rfl
  · intro op t hne hc
    cases op with
    | completed now3 size3 payload3 => exact ⟨now3, size3, payload3, rfl⟩
    | send now3 out3 =>
      exfalso
      have hc2 : (send now3 out3 t).sys.req.state = RequestState.COMPLETED := hc
      by_cases hp : t.req.state = RequestState.PENDING
      · cases out3 with
        | some e =>
          rw [send_pending_threw now3 e t hp] at hc2
          exact hne hc2
        | none =>
          rw [send_pending_returned now3 t hp] at hc2
          cases hc2
      · rw [send_not_pending now3 out3 t hp] at hc2
        exact hne hc2
    | rejected now3 error3 =>
      exfalso
      have hc2 : (rejected now3 error3 t).sys.req.state = RequestState.COMPLETED := hc
      by_cases hp : t.req.state = RequestState.PENDING ∨ t.req.state = RequestState.SENT
      · rw [rejected_accepted now3 error3 t hp] at hc2
        cases hc2
      · rw [rejected_not_accepted now3 error3 t (fun q => hp (Or.inl q))
          (fun q => hp (Or.inr q))] at hc2
        exact hne hc2
    | timerFires id3 now3 =>
      exfalso
      have hc2 : ((fireTimer id3 now3 t).getD
          { sys := t, completion := Completion.returned }).sys.req.state
          = RequestState.COMPLETED := hc
      cases hf : t.timers.any (fun x => x.id == id3) with
      | false =>
        rw [fireTimer_not_armed id3 now3 t hf] at hc2
        exact hne hc2
      | true =>
        rw [fireTimer_armed id3 now3 t hf] at hc2
        by_cases hp : t.req.state = RequestState.PENDING ∨ t.req.state = RequestState.SENT
        · have hp2 : ({ t with timers := t.timers.filter (fun x => x.id != id3) } : Sys).req.state
              = RequestState.PENDING ∨
              ({ t with timers := t.timers.filter (fun x => x.id != id3) } : Sys).req.state
              = RequestState.SENT := hp
          rw [timeoutCallback_accepted now3 _ hp2] at hc2
          cases hc2
        · have h1 : ({ t with timers := t.timers.filter (fun x => x.id != id3) } : Sys).req.state
              ≠ RequestState.PENDING := fun q => hp (Or.inl q)
          have h2 : ({ t with timers := t.timers.filter (fun x => x.id != id3) } : Sys).req.state
              ≠ RequestState.SENT := fun q => hp (Or.inr q)
          rw [timeoutCallback_not_accepted now3 _ h1 h2] at hc2
          exact hne hc2
  · rw [completed_sent now2 size payload _ hsent]
  · rw [completed_sent now2 size payload _ hsent]
    simp only [resolveCount_append, resolveCount_cons, resolveCount_nil, hres]

/-- Witness of the amended C9: the fire-and-forget tracker after its send. -/
theorem C9_send_leaves_sent_witness :
    (send 5 none (run [] (Sys.fresh fireAndForgetArgs 0 0))).sys.req.state
        = RequestState.SENT ∧
    resolveCount (completed 6 0 []
        (send 5 none (run [] (Sys.fresh fireAndForgetArgs 0 0))).sys).sys.trace = 1 :=
  ⟨(C9_send_leaves_sent_whatever_expectResponse fireAndForgetArgs 0 0 [] 5 6 0 []
      (by decide)).2.1,
   (C9_send_leaves_sent_whatever_expectResponse fireAndForgetArgs 0 0 [] 5 6 0 []
      (by decide)).2.2.2.2.2.2.2.2⟩

/-! ## Claims about the client -/

/-- C10: for every client and every options object given to `producer()` or
`consumer()`, the arguments of `new Cluster` hold metadataMaxAge = 300000 when
that option is omitted (reads as `undefined`), allowAutoTopicCreation = true when
omitted and maxInFlightRequests = null when omitted; an option that is supplied
is passed as it is; and brokers, ssl, sasl, clientId, connectionTimeout,
authenticationTimeout and retry are those given to the `Client` constructor. -/
theorem C10_cluster_defaults_and_passthrough (imp : Imports) (co : ClientOptions)
    (po : ProducerOptions) (so : ConsumerOptions) :
    ((Client.new imp co).producer imp po).cluster.metadataMaxAge
      = (if po.metadataMaxAge.isUndefined then JSValue.number 300000
          else po.metadataMaxAge) ∧
    ((Client.new imp co).producer imp po).cluster.allowAutoTopicCreation
      = (if po.allowAutoTopicCreation.isUndefined then JSValue.boolean true
          else po.allowAutoTopicCreation) ∧
    ((Client.new imp co).producer imp po).cluster.maxInFlightRequests
      = (if po.maxInFlightRequests.isUndefined then JSValue.null
          else po.maxInFlightRequests) ∧
    ((Client.new imp co).consumer imp so).cluster.metadataMaxAge
      = (if so.metadataMaxAge.isUndefined then JSValue.number 300000
          else so.metadataMaxAge) ∧
    ((Client.new imp co).consumer imp so).cluster.allowAutoTopicCreation
      = (if so.allowAutoTopicCreation.isUndefined then JSValue.boolean true
          else so.allowAutoTopicCreation) ∧
    ((Client.new imp co).consumer imp so).cluster.maxInFlightRequests
      = (if so.maxInFlightRequests.isUndefined then JSValue.null
          else so.maxInFlightRequests) ∧
    (((Client.new imp co).producer imp po).cluster.brokers = co.brokers ∧
      ((Client.new imp co).producer imp po).cluster.ssl = co.ssl ∧
      ((Client.new imp co).producer imp po).cluster.sasl = co.sasl ∧
      ((Client.new imp co).producer imp po).cluster.clientId = co.clientId ∧
      ((Client.new imp co).producer imp po).cluster.connectionTimeout
        = co.connectionTimeout ∧
      ((Client.new imp co).producer imp po).cluster.authenticationTimeout
        = co.authenticationTimeout ∧
      ((Client.new imp co).producer imp po).cluster.retry = co.retry) ∧
    (((Client.new imp co).consumer imp so).cluster.brokers = co.brokers ∧
      ((Client.new imp co).consumer imp so).cluster.ssl = co.ssl ∧
      ((Client.new imp co).consumer imp so).cluster.sasl = co.sasl ∧
      ((Client.new imp co).consumer imp so).cluster.clientId = co.clientId ∧
      ((Client.new imp co).consumer imp so).cluster.connectionTimeout
        = co.connectionTimeout ∧
      ((Client.new imp co).consumer imp so).cluster.authenticationTimeout
        = co.authenticationTimeout ∧
      ((Client.new imp co).consumer imp so).cluster.retry = co.retry) := by
  refine ⟨rfl, rfl, rfl, rfl, rfl, rfl, ⟨rfl, rfl, rfl, rfl, rfl, rfl, rfl⟩,
    ⟨rfl, rfl, rfl, rfl, rfl, rfl, rfl⟩⟩

/-! ## Claims about the broker facade -/

/-- C11: on a Broker facade whose connection has not been established (never
connected, or `connect()` failed, or disconnected), `metadata(topics)` rejects
with `Error('Broker not connected')` for every topics argument, none included;
no request is sent and the cluster is left as it was. -/
theorem C11_metadata_rejects_when_not_connected (flag : Option Bool) (r : RemoteCluster)
    (topics : Option (List String)) (b : Broker) :
    ((Broker.new flag).metadata r topics).result
        = Except.error (BrokerError.Error "Broker not connected") ∧
    ((Broker.new flag).metadata r topics).sent = [] ∧
    ((Broker.new flag).metadata r topics).cluster = r ∧
    (((Broker.new flag).connect false).metadata r topics).result
        = Except.error (BrokerError.Error "Broker not connected") ∧
    ((b.disconnect).metadata r topics).result
        = Except.error (BrokerError.Error "Broker not connected") ∧
    ((b.disconnect).metadata r topics).sent = [] := by
  refine ⟨rfl, rfl, rfl, rfl, rfl, rfl⟩

/-- The topic asked for alone, when it does not exist and creation is off, gets
error code 3 in the response. -/
theorem respond_missing_topic (r : RemoteCluster) (topic : String)
    (h : topic ∉ r.topics) :
    (r.respond { topics := some [topic], allowAutoTopicCreation := false }).topicMetadata
      = [{ topic := topic, topicErrorCode := 3, isInternal := false,
           partitionMetadata := [] }] := by
  simp [RemoteCluster.respond, RemoteCluster.topicMetadata, h]

/-- C12: on a connected Broker facade created with `allowAutoTopicCreation = false`,
`metadata([topic])` for a topic that does not exist on the cluster rejects with a
protocol error whose type is `UNKNOWN_TOPIC_OR_PARTITION`; it is not a successful
response, one request was sent, and the topic has not been created. -/
theorem C12_metadata_unknown_topic (r : RemoteCluster) (topic : String)
    (h : topic ∉ r.topics) :
    (((Broker.new (some false)).connect true).metadata r (some [topic])).result
        = Except.error (BrokerError.KafkaJSProtocolError "UNKNOWN_TOPIC_OR_PARTITION" 3) ∧
    (∀ resp, (((Broker.new (some false)).connect true).metadata r (some [topic])).result
        ≠ Except.ok resp) ∧
    (((Broker.new (some false)).connect true).metadata r (some [topic])).sent
        = [{ topics := some [topic], allowAutoTopicCreation := false }] ∧
    (((Broker.new (some false)).connect true).metadata r (some [topic])).cluster = r ∧
    topic ∉ (((Broker.new (some false)).connect true).metadata r (some [topic])).cluster.topics
    := by
  have hres : (((Broker.new (some false)).connect true).metadata r (some [topic])).result
      = Except.error (BrokerError.KafkaJSProtocolError "UNKNOWN_TOPIC_OR_PARTITION" 3) := by
    show decodeMetadata
      (r.respond { topics := some [topic], allowAutoTopicCreation := false }) = _
    unfold decodeMetadata
    rw [respond_missing_topic r topic h]
    rfl
  refine ⟨hres, ?_, rfl, rfl, h⟩
  intro resp hr
  rw [hres] at hr
  cases hr

/-- Witness of C12: the topic `missing` on the example cluster, which has `t` only. -/
theorem C12_metadata_unknown_topic_witness :
    (((Broker.new (some false)).connect true).metadata exampleCluster
        (some ["missing"])).result
      = Except.error (BrokerError.KafkaJSProtocolError "UNKNOWN_TOPIC_OR_PARTITION" 3) :=
  (C12_metadata_unknown_topic exampleCluster "missing" (by decide)).1

/-! ## Further claims about the request tracker -/

/-- C13: when send, completed or rejected throws the state-violation error, the
call has changed nothing: the tracker's fields (state, sentAt, pendingDuration,
duration, the timer handle), the armed timers and the trace of outside calls are
what they were, so no callback, `clearTimeout` or continuation has been called.
A `completed()` on a PENDING tracker is such a call. -/
theorem C13_state_violation_changes_nothing (s : Sys) (now size : Int)
    (out : Option JSError) (payload : Payload) (error : JSError) :
    ((send now out s).completion.isStateViolation = true → (send now out s).sys = s) ∧
    ((completed now size payload s).completion.isStateViolation = true →
      (completed now size payload s).sys = s) ∧
    ((rejected now error s).completion.isStateViolation = true →
      (rejected now error s).sys = s) ∧
    (s.req.state = RequestState.PENDING →
      (completed now size payload s).completion.isStateViolation = true ∧
      (completed now size payload s).sys.req = s.req ∧
      (completed now size payload s).sys.timers = s.timers ∧
      (completed now size payload s).sys.trace = s.trace) := by
  refine ⟨?_, ?_, ?_, ?_⟩
  · intro h
    rw [send_not_pending now out s ((send_violation_iff now out s).1 h)]
  · intro h
    rw [completed_not_sent now size payload s ((completed_violation_iff now size payload s).1 h)]
  · intro h
    have h2 := (rejected_violation_iff now error s).1 h
    rw [rejected_not_accepted now error s h2.1 h2.2]
  · intro h
    have hns : s.req.state ≠ RequestState.SENT := by rw [h]; decide
    refine ⟨(completed_violation_iff now size payload s).2 hns, ?_, ?_, ?_⟩ <;>
      rw [completed_not_sent now size payload s hns]

/-- Witness of C13: a response that arrives for a tracker still PENDING, and a
late response after a timeout, leave everything as it was. -/
theorem C13_state_violation_witness :
    (completed 3 2 [1, 2] (Sys.fresh exampleArgs 0 0)).sys = Sys.fresh exampleArgs 0 0 ∧
    (completed 9 2 [1, 2]
        (run [Op.send 5 none, Op.timerFires 0 8] (Sys.fresh exampleArgs 0 0))).sys
      = run [Op.send 5 none, Op.timerFires 0 8] (Sys.fresh exampleArgs 0 0) :=
  ⟨(C13_state_violation_changes_nothing (Sys.fresh exampleArgs 0 0) 3 2 none [1, 2]
      (JSError.Error "x")).2.1 (by decide),
   (C13_state_violation_changes_nothing
      (run [Op.send 5 none, Op.timerFires 0 8] (Sys.fresh exampleArgs 0 0)) 9 2 none [1, 2]
      (JSError.Error "x")).2.1 (by decide)⟩

/-- C14: when the send callback throws during `send()` on a PENDING tracker, the
exception leaves `send()` as it is and the tracker stays PENDING, with sentAt and
pendingDuration still null and no alarm armed; a later `rejected()` is accepted
and so is a later `send()`.  The state is SENT, and an alarm armed, after a
`send()` only if the callback returned, and the alarm is armed after the callback
was called. -/
theorem C14_send_callback_failure_keeps_pending (args : ConstructorArgs) (created : Int)
    (n : Nat) (ops : List Op) (now now2 : Int) (e error : JSError) (out : Option JSError)
    (hs : (run ops (Sys.fresh args created n)).req.state = RequestState.PENDING) :
    (send now (some e) (run ops (Sys.fresh args created n))).completion
        = Completion.sendRequestThrew e ∧
    (send now (some e) (run ops (Sys.fresh args created n))).sys.req.state
        = RequestState.PENDING ∧
    (send now (some e) (run ops (Sys.fresh args created n))).sys.req.sentAt = none ∧
    (send now (some e) (run ops (Sys.fresh args created n))).sys.req.pendingDuration = none ∧
    (send now (some e) (run ops (Sys.fresh args created n))).sys.req.timeoutId = none ∧
    (send now (some e) (run ops (Sys.fresh args created n))).sys.timers = [] ∧
    (send now (some e) (run ops (Sys.fresh args created n))).sys.trace
        = (run ops (Sys.fresh args created n)).trace ++ [Event.sendRequest] ∧
    (rejected now2 error
        (send now (some e) (run ops (Sys.fresh args created n))).sys).completion
        = Completion.returned ∧
    (send now2 out
        (send now (some e) (run ops (Sys.fresh args created n))).sys).completion.isStateViolation
        = false ∧
    (send now2 none
        (send now (some e) (run ops (Sys.fresh args created n))).sys).completion
        = Completion.returned ∧
    ((send now out (run ops (Sys.fresh args created n))).sys.req.state = RequestState.SENT →
      out = none) ∧
    ((send now out (run ops (Sys.fresh args created n))).sys.timers ≠ [] → out = none) ∧
    (send now none (run ops (Sys.fresh args created n))).sys.trace
        = (run ops (Sys.fresh args created n)).trace ++
          [Event.sendRequest,
           Event.setTimeout (run ops (Sys.fresh args created n)).nextTimerId
             args.requestTimeout] := by
  have hinv := inv_reachable args created n ops
  obtain ⟨htim, hsent, hpd, hid, -⟩ := hinv.pending hs
  have hp2 : ((run ops (Sys.fresh args created n)).emit Event.sendRequest).req.state
      = RequestState.PENDING := hs
  refine ⟨?_, ?_, ?_, ?_, ?_, ?_, ?_, ?_, ?_, ?_, ?_, ?_, ?_⟩
  · rw [send_pending_threw now e _ hs]
  · rw [send_pending_threw now e _ hs]; exact hs
  · rw [send_pending_threw now e _ hs]; exact hsent
  · rw [send_pending_threw now e _ hs]; exact hpd
  · rw [send_pending_threw now e _ hs]; exact hid
  · rw [send_pending_threw now e _ hs]; exact htim
  · rw [send_pending_threw now e _ hs]; rfl
  · rw [send_pending_threw now e _ hs]
    exact (rejected_returned_iff now2 error _).2 (Or.inl hp2)
  · rw [send_pending_threw now e _ hs]
    cases hv : (send now2 out
        ((run ops (Sys.fresh args created n)).emit Event.sendRequest)).completion.isStateViolation
      with
    | false => rfl
    | true => exact absurd hp2 ((send_violation_iff now2 out _).1 hv)
  · rw [send_pending_threw now e _ hs]
    exact (send_returned_iff now2 none _).2 ⟨hp2, rfl⟩
  · intro h
    cases out with
    | none => rfl
    | some e2 =>
      rw [send_pending_threw now e2 _ hs] at h
      rw [hp2] at h
      cases h
  · intro h
    cases out with
    | none => rfl
    | some e2 =>
      rw [send_pending_threw now e2 _ hs] at h
      exact absurd htim h
  · rw [send_pending_returned now _ hs]
    simp [hinv.requestTimeout]

/-- Witness of C14: the socket write fails at time 5; the tracker is still PENDING
and is then rejected by the connection. -/
theorem C14_send_callback_failure_witness :
    (send 5 (some (JSError.Error "write EPIPE")) (run [] (Sys.fresh exampleArgs 0 0))).completion
        = Completion.sendRequestThrew (JSError.Error "write EPIPE") ∧
    (send 5 (some (JSError.Error "write EPIPE"))
        (run [] (Sys.fresh exampleArgs 0 0))).sys.req.state = RequestState.PENDING ∧
    (rejected 6 (JSError.Error "closed")
        (send 5 (some (JSError.Error "write EPIPE"))
          (run [] (Sys.fresh exampleArgs 0 0))).sys).completion = Completion.returned :=
  ⟨(C14_send_callback_failure_keeps_pending exampleArgs 0 0 [] 5 6
      (JSError.Error "write EPIPE") (JSError.Error "closed") none (by decide)).1,
   (C14_send_callback_failure_keeps_pending exampleArgs 0 0 [] 5 6
      (JSError.Error "write EPIPE") (JSError.Error "closed") none (by decide)).2.1,
   (C14_send_callback_failure_keeps_pending exampleArgs 0 0 [] 5 6
      (JSError.Error "write EPIPE") (JSError.Error "closed") none
      (by decide)).2.2.2.2.2.2.2.1⟩

/-- C15: after a `rejected()` that returned, duration is the current time minus
sentAt when the tracker was SENT, and the current clock value itself when the
tracker was still PENDING (sentAt is null and counts as 0): a number in both
cases, never null. -/
theorem C15_rejected_duration (args : ConstructorArgs) (created : Int) (n : Nat)
    (ops : List Op) (now : Int) (error : JSError) :
    ((run ops (Sys.fresh args created n)).req.state = RequestState.SENT →
      ∃ sentAt, (run ops (Sys.fresh args created n)).req.sentAt = some sentAt ∧
        (rejected now error (run ops (Sys.fresh args created n))).completion
          = Completion.returned ∧
        (rejected now error (run ops (Sys.fresh args created n))).sys.req.duration
          = some (now - sentAt)) ∧
    ((run ops (Sys.fresh args created n)).req.state = RequestState.PENDING →
      (run ops (Sys.fresh args created n)).req.sentAt = none ∧
        (rejected now error (run ops (Sys.fresh args created n))).completion
          = Completion.returned ∧
        (rejected now error (run ops (Sys.fresh args created n))).sys.req.duration
          = some now) ∧
    ((rejected now error (run ops (Sys.fresh args created n))).completion
        = Completion.returned →
      (rejected now error (run ops (Sys.fresh args created n))).sys.req.duration ≠ none) := by
  have hinv := inv_reachable args created n ops
  refine ⟨?_, ?_, ?_⟩
  · intro hs
    obtain ⟨⟨t, ht, -⟩, -, -⟩ := hinv.sent hs
    refine ⟨t, ht, ?_, ?_⟩
    · exact (rejected_returned_iff now error _).2 (Or.inr hs)
    · rw [rejected_accepted now error _ (Or.inr hs)]
      simp [ht]
  · intro hs
    obtain ⟨-, hsent, -, -, -⟩ := hinv.pending hs
    refine ⟨hsent, ?_, ?_⟩
    · exact (rejected_returned_iff now error _).2 (Or.inl hs)
    · rw [rejected_accepted now error _ (Or.inl hs)]
      simp [hsent]
  · intro h
    rw [rejected_accepted now error _ ((rejected_returned_iff now error _).1 h)]
    simp

/-- Witness of C15: a tracker created at 7 and rejected at 9 without having been
sent has duration 9; one created at 0, sent at 5 and rejected at 9 has duration
9 - 5. -/
theorem C15_rejected_duration_witness :
    (rejected 9 (JSError.Error "closed")
        (run [] (Sys.fresh exampleArgs 7 0))).sys.req.duration = some 9 ∧
    (∃ sentAt, (run [Op.send 5 none] (Sys.fresh exampleArgs 0 0)).req.sentAt = some sentAt ∧
      (rejected 9 (JSError.Error "closed")
        (run [Op.send 5 none] (Sys.fresh exampleArgs 0 0))).completion = Completion.returned ∧
      (rejected 9 (JSError.Error "closed")
        (run [Op.send 5 none] (Sys.fresh exampleArgs 0 0))).sys.req.duration
        = some (9 - sentAt)) :=
  ⟨((C15_rejected_duration exampleArgs 7 0 [] 9 (JSError.Error "closed")).2.1
      (by decide)).2.2,
   (C15_rejected_duration exampleArgs 0 0 [Op.send 5 none] 9 (JSError.Error "closed")).1
      (by decide)⟩

/-! ## Further claims about the client -/

/-- C16, evaluated where it fails: with the cluster retry policy
`{ retries: 5, initialRetryTime: 300 }` and the per-call object `{ retries: 2 }`,
`producer` hands on `{ retries: 2, initialRetryTime: 300 }`, while `consumer` and
`admin` hand on the cluster policy unchanged plus a property `retry` that holds
the per-call object, so the per-call `retries` does not replace the cluster's. -/
theorem C16_consumer_admin_nest_per_call_retry :
    (exampleRetryClient.producer exampleImports { retry := examplePerCallRetry }).retry
      = JSValue.object [("retries", JSValue.number 2),
          ("initialRetryTime", JSValue.number 300)] ∧
    (exampleRetryClient.consumer exampleImports { retry := examplePerCallRetry }).retry
      = JSValue.object [("retries", JSValue.number 5),
          ("initialRetryTime", JSValue.number 300),
          ("retry", JSValue.object [("retries", JSValue.number 2)])] ∧
    (exampleRetryClient.admin exampleImports { retry := examplePerCallRetry }).retry
      = JSValue.object [("retries", JSValue.number 5),
          ("initialRetryTime", JSValue.number 300),
          ("retry", JSValue.object [("retries", JSValue.number 2)])] ∧
    (exampleRetryClient.consumer exampleImports { retry := examplePerCallRetry }).retry
      ≠ (exampleRetryClient.producer exampleImports { retry := examplePerCallRetry }).retry ∧
    (exampleRetryClient.admin exampleImports { retry := examplePerCallRetry }).retry
      ≠ (exampleRetryClient.producer exampleImports { retry := examplePerCallRetry }).retry := by
  have hp : (exampleRetryClient.producer exampleImports { retry := examplePerCallRetry }).retry
      = JSValue.object [("retries", JSValue.number 2),
          ("initialRetryTime", JSValue.number 300)] := by rfl
  have hc : (exampleRetryClient.consumer exampleImports { retry := examplePerCallRetry }).retry
      = JSValue.object [("retries", JSValue.number 5),
          ("initialRetryTime", JSValue.number 300),
          ("retry", JSValue.object [("retries", JSValue.number 2)])] := by rfl
  have ha : (exampleRetryClient.admin exampleImports { retry := examplePerCallRetry }).retry
      = JSValue.object [("retries", JSValue.number 5),
          ("initialRetryTime", JSValue.number 300),
          ("retry", JSValue.object [("retries", JSValue.number 2)])] := by rfl
  refine ⟨hp, hc, ha, ?_, ?_⟩
  · rw [hc, hp]
    simp
  · rw [ha, hp]
    simp

/-- C17: for every client and every argument of `admin()`, the arguments of the
admin facility's `new Cluster` hold allowAutoTopicCreation = false,
metadataMaxAge = 300000 and maxInFlightRequests = null, whatever the options of
the `Client` constructor and whatever properties the argument of `admin()` has. -/
theorem C17_admin_cluster_never_auto_creates (imp : Imports) (co : ClientOptions)
    (ao : AdminOptions) (fields : List (String × JSValue)) :
    ((Client.new imp co).admin imp ao).cluster.allowAutoTopicCreation
        = JSValue.boolean false ∧
    ((Client.new imp co).admin imp ao).cluster.metadataMaxAge = JSValue.number 300000 ∧
    ((Client.new imp co).admin imp ao).cluster.maxInFlightRequests = JSValue.null ∧
    ((Client.new imp co).admin imp (AdminOptions.ofObject fields)).cluster.allowAutoTopicCreation
        = JSValue.boolean false ∧
    ((Client.new imp co).admin imp (AdminOptions.ofObject fields)).cluster.metadataMaxAge
        = JSValue.number 300000 ∧
    ((Client.new imp co).admin imp (AdminOptions.ofObject fields)).cluster.maxInFlightRequests
        = JSValue.null ∧
    ((Client.new imp co).admin imp ao).cluster.allowAutoTopicCreation
        ≠ JSValue.boolean true := by
  refine ⟨rfl, rfl, rfl, rfl, rfl, rfl, ?_⟩
  show JSValue.boolean false ≠ JSValue.boolean true
  simp

end KafkaJS
